import Mathlib

/-
  Verification development for the biosim4-web evolution core.

  The TypeScript sources are shallowly embedded as follows:
  - JavaScript 32-bit unsigned integers are Nat with explicit reduction
    modulo 4294967296 (2^32) where the code applies a ToUint32 coercion
    (x >>> 0, Math.imul, typed-array stores).
  - JavaScript bitwise ops on small disjoint fields are written as
    arithmetic (division, remainder, multiplication by powers of two),
    which is exactly what they compute there.
  - Grid cells and signal cells (Uint16Array / Uint8Array contents) are Nat.
  - Fractional JavaScript numbers are modeled as exact rationals.  Where a
    code path evaluates transcendental functions (Math.tanh, Math.sin,
    Math.exp, Math.sqrt) the model is parameterized by a structure of
    abstract functions on the rationals, so every theorem quantifying over
    that structure holds for the IEEE-754 implementations in particular.
  - Mutation of objects becomes explicit state passing; the PRNG state is
    threaded through every function that consumes randomness.
-/

/- ── Gene codec (src/lib/biosim4/types.ts) ─────────────────────────── -/

/-- A single gene encodes one neural connection, packed into 32 bits:
bit 31 sourceType, bits 30..24 sourceId, bit 23 sinkType,
bits 22..16 sinkId, bits 15..0 weight (signed 16-bit). -/
structure Gene where
  sourceType : Nat
  sourceId : Nat
  sinkType : Nat
  sinkId : Nat
  weightAsInt : Int
deriving Repr, DecidableEq

/-- types.ts geneToUint32.  The JS `|` of disjoint shifted fields equals the
sum below; `weightAsInt & 0xFFFF` on a signed value is its residue mod 2^16,
which is `Int.emod` by 65536. -/
def geneToUint32 (g : Gene) : Nat :=
  (g.sourceType % 2) * 2147483648 + (g.sourceId % 128) * 16777216 +
  (g.sinkType % 2) * 8388608 + (g.sinkId % 128) * 65536 +
  (g.weightAsInt % 65536).toNat

/-- types.ts uint32ToGene.  `(val >>> k) & mask` is division by 2^k followed
by remainder; the low 16 bits decode as two's complement. -/
def uint32ToGene (val : Nat) : Gene :=
  { sourceType := val / 2147483648 % 2
    sourceId := val / 16777216 % 128
    sinkType := val / 8388608 % 2
    sinkId := val / 65536 % 128
    weightAsInt :=
      if val % 65536 > 32767 then (val % 65536 : Int) - 65536
      else (val % 65536 : Int) }

/-- A structured gene whose fields are in the ranges the 32-bit layout can
represent: 1-bit types, 7-bit ids, signed 16-bit weight. -/
def GeneInRange (g : Gene) : Prop :=
  g.sourceType ≤ 1 ∧ g.sourceId ≤ 127 ∧ g.sinkType ≤ 1 ∧ g.sinkId ≤ 127 ∧
  -32768 ≤ g.weightAsInt ∧ g.weightAsInt ≤ 32767

instance (g : Gene) : Decidable (GeneInRange g) := by
  unfold GeneInRange; infer_instance

/-- Claim C2: the gene codec is a bijection between 32-bit words and
in-range structured genes: geneToUint32 ∘ uint32ToGene is the identity on
32-bit words, uint32ToGene ∘ geneToUint32 is the identity on in-range genes,
and the low 16 bits decode as two's complement, witnessed at
0x0000FFFF ↦ -1, 0x00008000 ↦ -32768, 0x00007FFF ↦ 32767. -/
theorem geneCodec_bijection :
    (∀ w : Nat, w < 4294967296 → geneToUint32 (uint32ToGene w) = w) ∧
    (∀ g : Gene, GeneInRange g → uint32ToGene (geneToUint32 g) = g) ∧
    (uint32ToGene 0x0000FFFF).weightAsInt = -1 ∧
    (uint32ToGene 0x00008000).weightAsInt = -32768 ∧
    (uint32ToGene 0x00007FFF).weightAsInt = 32767 := by
  refine ⟨?_, ?_, by decide, by decide, by decide⟩
  · intro w hw
    simp only [geneToUint32, uint32ToGene]
    split_ifs <;> omega
  · rintro ⟨a, b, c, d, w⟩ ⟨h1, h2, h3, h4, h5, h6⟩
    dsimp only at h1 h2 h3 h4 h5 h6
    have ha : a % 2 = a := Nat.mod_eq_of_lt (by omega)
    have hb : b % 128 = b := Nat.mod_eq_of_lt (by omega)
    have hc : c % 2 = c := Nat.mod_eq_of_lt (by omega)
    have hd : d % 128 = d := Nat.mod_eq_of_lt (by omega)
    simp only [geneToUint32, uint32ToGene, ha, hb, hc, hd, Gene.mk.injEq]
    have hk1 : (w % 65536).toNat < 65536 := by omega
    have hlow :
        (a * 2147483648 + b * 16777216 + c * 8388608 + d * 65536 +
          (w % 65536).toNat) % 65536 = (w % 65536).toNat := by omega
    rw [hlow]
    refine ⟨by omega, by omega, by omega, by omega, ?_⟩
    split_ifs <;> omega

/-- Concrete instantiation of the codec round trips. -/
theorem geneCodec_bijection_witness :
    geneToUint32 (uint32ToGene 3735928559) = 3735928559 ∧
    uint32ToGene (geneToUint32 ⟨1, 5, 0, 7, -100⟩) = ⟨1, 5, 0, 7, -100⟩ :=
  ⟨geneCodec_bijection.1 3735928559 (by norm_num),
   geneCodec_bijection.2.1 ⟨1, 5, 0, 7, -100⟩ (by decide)⟩

/- ── PRNG (src/lib/biosim4/random.ts) ──────────────────────────────── -/

/-- State of the xoshiro128** generator: the four 32-bit words of the
Uint32Array, plus a ghost counter of how many times nextUint32 has been
called.  The counter is not in the source; it only instruments the model so
that frame conditions about randomness consumption can be stated. -/
structure PRNGState where
  s0 : Nat
  s1 : Nat
  s2 : Nat
  s3 : Nat
  draws : Nat
deriving Repr, DecidableEq

/-- random.ts rotl: 32-bit rotate left, on the unsigned view of the word. -/
def rotl (x k : Nat) : Nat := ((x <<< k) % 4294967296) ||| (x >>> (32 - k))

/-- Math.imul: 32-bit product (same bit pattern as the signed JS result). -/
def imul (a b : Nat) : Nat := a * b % 4294967296

/-- random.ts PRNG.nextUint32: result from the pre-call state, then the
xoshiro128** state update.  Note the shift term t is captured from s1
before the xor shuffle runs. -/
def nextUint32 (st : PRNGState) : Nat × PRNGState :=
  let result := imul (rotl (imul st.s1 5) 7) 9
  let t := (st.s1 <<< 9) % 4294967296
  let s2 := st.s2 ^^^ st.s0
  let s3 := st.s3 ^^^ st.s1
  let s1 := st.s1 ^^^ s2
  let s0 := st.s0 ^^^ s3
  let s2b := s2 ^^^ t
  let s3b := rotl s3 11
  (result, ⟨s0, s1, s2b, s3b, st.draws + 1⟩)

/-- One SplitMix32 round of the constructor loop: advances z and yields one
state word. -/
def splitmix32Step (z : Nat) : Nat × Nat :=
  let z1 := (z + 0x9E3779B9) % 4294967296
  let t1 := z1 ^^^ (z1 >>> 16)
  let t2 := imul t1 0x21F0AAAD
  let t3 := t2 ^^^ (t2 >>> 15)
  let t4 := imul t3 0x735A2D97
  let t5 := t4 ^^^ (t4 >>> 15)
  (z1, t5)

/-- random.ts PRNG constructor: seed the four state words via SplitMix32. -/
def prngInit (seed : Nat) : PRNGState :=
  let z0 := seed % 4294967296
  let p1 := splitmix32Step z0
  let p2 := splitmix32Step p1.1
  let p3 := splitmix32Step p2.1
  let p4 := splitmix32Step p3.1
  ⟨p1.2, p2.2, p3.2, p4.2, 0⟩

/-- random.ts PRNG.next: a rational in [0,1).  The JS division u / 2^32 is
exact in binary floating point. -/
def next01 (st : PRNGState) : ℚ × PRNGState :=
  let r := nextUint32 st
  ((r.1 : ℚ) / 4294967296, r.2)

/-- random.ts PRNG.nextInt: floor(next() * max).  In exact arithmetic
floor((u/2^32)*max) = u*max/2^32; the JS float evaluation agrees because
u*max stays far below 2^53 for every max the program passes. -/
def nextInt (st : PRNGState) (max : Nat) : Nat × PRNGState :=
  let r := nextUint32 st
  (r.1 * max / 4294967296, r.2)

/-- random.ts PRNG.nextRange (inclusive); call sites all have lo ≤ hi. -/
def nextRange (st : PRNGState) (lo hi : Nat) : Nat × PRNGState :=
  let r := nextUint32 st
  (lo + r.1 * (hi - lo + 1) / 4294967296, r.2)

/-- random.ts PRNG.chance: next() < p. -/
def chance (st : PRNGState) (p : ℚ) : Bool × PRNGState :=
  let r := next01 st
  (decide (r.1 < p), r.2)

/-- State after skipping n draws. -/
def prngSkip (st : PRNGState) : Nat → PRNGState
  | 0 => st
  | n + 1 => prngSkip (nextUint32 st).2 n

/-- The n-th 32-bit output of the generator started at st. -/
def prngNth (st : PRNGState) (n : Nat) : Nat := (nextUint32 (prngSkip st n)).1

/-- Modelled from the spec's words, for the counterexample only: the state
update of C3 read literally as statements executed in sequence, so that the
term s1 shifted left by 9 uses the value s1 holds after the assignment
s1 ^= s2 has already run.  The source instead captures t = s1 << 9 from the
pre-update s1 before the xor shuffle. -/
def specSequentialUpdate (st : PRNGState) : PRNGState :=
  let s2 := st.s2 ^^^ st.s0
  let s3 := st.s3 ^^^ st.s1
  let s1 := st.s1 ^^^ s2
  let s0 := st.s0 ^^^ s3
  let s2b := s2 ^^^ ((s1 <<< 9) % 4294967296)
  let s3b := rotl s3 11
  ⟨s0, s1, s2b, s3b, st.draws + 1⟩

/-- Claim C3 counterexample: at the state seeded from 1, the next state the
code computes differs (in word s2) from the claim's literal sequential
update, because the code captures the shift term from the pre-update s1. -/
theorem prng_update_not_sequential :
    (nextUint32 (prngInit 1)).2 ≠ specSequentialUpdate (prngInit 1) := by
  decide

/-- Claim C3 (amended): nextUint32 returns rotl(s1*5,7)*9 computed from the
pre-call state, and updates the state by the xor sequence of the claim
except that the term s1<<9 is captured from the pre-update value of
state[1] (before s1 ^= s2 runs); two generators seeded identically produce
identical output sequences. -/
theorem prng_step_spec :
    (∀ st : PRNGState,
      (nextUint32 st).1 = imul (rotl (imul st.s1 5) 7) 9 ∧
      (nextUint32 st).2.s0 = st.s0 ^^^ (st.s3 ^^^ st.s1) ∧
      (nextUint32 st).2.s1 = st.s1 ^^^ (st.s2 ^^^ st.s0) ∧
      (nextUint32 st).2.s2 =
        (st.s2 ^^^ st.s0) ^^^ ((st.s1 <<< 9) % 4294967296) ∧
      (nextUint32 st).2.s3 = rotl (st.s3 ^^^ st.s1) 11) ∧
    (∀ seed n a b, a = prngInit seed → b = prngInit seed →
      prngNth a n = prngNth b n) := by
  refine ⟨fun st => ⟨rfl, rfl, rfl, rfl, rfl⟩, ?_⟩
  rintro seed n a b rfl rfl
  rfl

/-- Concrete instantiation of the PRNG determinism conjunct. -/
theorem prng_step_spec_witness :
    prngNth (prngInit 7) 3 = prngNth (prngInit 7) 3 :=
  prng_step_spec.2 7 3 (prngInit 7) (prngInit 7) rfl rfl

/- ── Genome operators (src/lib/biosim4/genome.ts, types.ts) ────────── -/

/-- types.ts makeRandomGene: decode a uniform 32-bit draw; the JS
expression (rng() * 0x100000000) >>> 0 recovers exactly the underlying
32-bit output. -/
def makeRandomGene (st : PRNGState) : Gene × PRNGState :=
  let r := nextUint32 st
  (uint32ToGene r.1, r.2)

/-- genome.ts makeRandomGenome. -/
def makeRandomGenome (st : PRNGState) : Nat → List Gene × PRNGState
  | 0 => ([], st)
  | n + 1 =>
    let g := makeRandomGene st
    let rest := makeRandomGenome g.2 n
    (g.1 :: rest.1, rest.2)

/-- genome.ts applyPointMutations: per gene, with probability rate flip one
uniformly chosen bit of the packed form.  For bit 31 the JS value 1 << 31
is negative but the xor result is brought back to unsigned by >>> 0, which
is the % 2^32 here. -/
def applyPointMutations (genome : List Gene) (st : PRNGState) (rate : ℚ) :
    List Gene × PRNGState :=
  match genome with
  | [] => ([], st)
  | g :: rest =>
    let c := chance st rate
    if c.1 then
      let b := nextInt c.2 32
      let mutated := (geneToUint32 g ^^^ (1 <<< b.1)) % 4294967296
      let r := applyPointMutations rest b.2 rate
      (uint32ToGene mutated :: r.1, r.2)
    else
      let r := applyPointMutations rest c.2 rate
      (g :: r.1, r.2)

/-- genome.ts applyInsertionDeletion. -/
def applyInsertionDeletion (genome : List Gene) (st : PRNGState)
    (rate delFraction : ℚ) (maxLength : Nat) : List Gene × PRNGState :=
  if genome.length = 0 then (genome, st)
  else
    let c1 := chance st rate
    if c1.1 then
      let c2 := chance c1.2 delFraction
      if c2.1 then
        if genome.length > 1 then
          let i := nextInt c2.2 genome.length
          (genome.eraseIdx i.1, i.2)
        else (genome, c2.2)
      else
        if genome.length < maxLength then
          let i := nextInt c2.2 (genome.length + 1)
          let g := makeRandomGene i.2
          (genome.insertIdx i.1 g.1, g.2)
        else (genome, c2.2)
    else (genome, c1.2)

theorem draws_nextUint32 (st : PRNGState) :
    (nextUint32 st).2.draws = st.draws + 1 := rfl

theorem draws_chance (st : PRNGState) (p : ℚ) :
    (chance st p).2.draws = st.draws + 1 := rfl

theorem draws_nextInt (st : PRNGState) (n : Nat) :
    (nextInt st n).2.draws = st.draws + 1 := rfl

theorem draws_makeRandomGene (st : PRNGState) :
    (makeRandomGene st).2.draws = st.draws + 1 := rfl

/-- Claim C10: on an empty genome applyInsertionDeletion returns the genome
and the generator state untouched (it draws nothing); on a non-empty genome
it always consumes at least one draw (the ghost draw counter strictly
increases). -/
theorem applyInsertionDeletion_frame :
    (∀ (st : PRNGState) (rate df : ℚ) (maxLen : Nat),
      applyInsertionDeletion [] st rate df maxLen = ([], st)) ∧
    (∀ (genome : List Gene) (st : PRNGState) (rate df : ℚ) (maxLen : Nat),
      genome ≠ [] →
      st.draws + 1 ≤ (applyInsertionDeletion genome st rate df maxLen).2.draws) := by
  constructor
  · intro st rate df maxLen; rfl
  · intro genome st rate df maxLen hne
    have hlen : ¬ genome.length = 0 := by
      simpa using fun h => hne (List.length_eq_zero.mp h)
    simp only [applyInsertionDeletion, if_neg hlen]
    split_ifs <;>
      simp [draws_chance, draws_nextInt, draws_makeRandomGene]

/-- Concrete instantiation of the insertion/deletion frame condition. -/
theorem applyInsertionDeletion_frame_witness :
    [uint32ToGene 0] ≠ [] ∧
    (prngInit 3).draws + 1 ≤
      (applyInsertionDeletion [uint32ToGene 0] (prngInit 3) 1 1 4).2.draws :=
  ⟨by decide,
   applyInsertionDeletion_frame.2 [uint32ToGene 0] (prngInit 3) 1 1 4
     (by decide)⟩

/- ── Neural net construction (src/lib/biosim4/neural-net.ts) ───────── -/

def NEURON : Nat := 0

def SENSOR : Nat := 1

def ACTION : Nat := 1

/-- Sensor.NUM_SENSES from the types.ts enum. -/
def NUM_SENSES : Nat := 21

/-- Action.NUM_ACTIONS from the types.ts enum. -/
def NUM_ACTIONS : Nat := 17

/-- A resolved connection; weight is weightAsInt / 8192, which JS floats
represent exactly (an integer divided by a power of two). -/
structure NeuralConnection where
  sourceType : Nat
  sourceId : Nat
  sinkType : Nat
  sinkId : Nat
  weight : ℚ
deriving Repr, DecidableEq

structure Neuron where
  output : ℚ
  driven : Bool
deriving Repr, DecidableEq

structure NeuralNet where
  connections : List NeuralConnection
  neurons : List Neuron
deriving Repr, DecidableEq

/-- types.ts geneWeight. -/
def geneWeight (g : Gene) : ℚ := (g.weightAsInt : ℚ) / 8192

/-- The connection-mapping step at the top of buildNeuralNet: remap raw ids
modulo the relevant range. -/
def geneToConn (numInternalNeurons : Nat) (g : Gene) : NeuralConnection :=
  { sourceType := g.sourceType
    sourceId :=
      if g.sourceType = SENSOR then g.sourceId % NUM_SENSES
      else g.sourceId % numInternalNeurons
    sinkType := g.sinkType
    sinkId :=
      if g.sinkType = ACTION then g.sinkId % NUM_ACTIONS
      else g.sinkId % numInternalNeurons
    weight := geneWeight g }

/-- The recompute-driven step: neuron n is driven iff some remaining
connection sinks into it. -/
def drivenOf (conns : List NeuralConnection) (n : Nat) : Bool :=
  conns.any fun c => c.sinkType == NEURON && c.sinkId == n

/-- One sweep of the pruning while-loop.  The source iterates downward and
splices out every connection whose source is an undriven internal neuron;
the driven flags are not recomputed until the sweep ends, so the sweep is
exactly this filter. -/
def prunePass (conns : List NeuralConnection) : List NeuralConnection :=
  conns.filter fun c => !(c.sourceType == NEURON && !(drivenOf conns c.sourceId))

theorem prunePass_length_le (conns : List NeuralConnection) :
    (prunePass conns).length ≤ conns.length :=
  List.length_filter_le _ conns

/-- The pruning while-loop, with an explicit sweep bound: every sweep that
changes anything strictly shrinks the list, so length + 1 sweeps always
reach the fixed point; the bound keeps the recursion structural so the
function evaluates.  At every iteration entry the source's driven flags
equal drivenOf of the current connection list (initial marking, then
recomputed after each sweep). -/
def pruneLoopFuel : Nat → List NeuralConnection → List NeuralConnection
  | 0, conns => conns
  | fuel + 1, conns =>
    if (prunePass conns).length = conns.length then conns
    else pruneLoopFuel fuel (prunePass conns)

def pruneLoop (conns : List NeuralConnection) : List NeuralConnection :=
  pruneLoopFuel (conns.length + 1) conns

/-- neural-net.ts buildNeuralNet.  The returned neuron flags are the driven
recomputation over the final connection list, which is what the loop leaves
behind (its last sweep removes nothing and recomputes driven from the
unchanged list). -/
def buildNeuralNet (genome : List Gene) (numInternalNeurons : Nat) :
    NeuralNet :=
  let conns := pruneLoop (genome.map (geneToConn numInternalNeurons))
  { connections := conns
    neurons :=
      (List.range numInternalNeurons).map fun i => ⟨1/2, drivenOf conns i⟩ }

theorem pruneLoopFuel_sublist (fuel : Nat) (conns : List NeuralConnection) :
    (pruneLoopFuel fuel conns).Sublist conns := by
  induction fuel generalizing conns with
  | zero => exact List.Sublist.refl _
  | succ f ih =>
    simp only [pruneLoopFuel]
    split
    · exact List.Sublist.refl _
    · exact (ih (prunePass conns)).trans (List.filter_sublist _)

theorem pruneLoop_sublist (conns : List NeuralConnection) :
    (pruneLoop conns).Sublist conns :=
  pruneLoopFuel_sublist _ _

theorem pruneLoopFuel_stable (fuel : Nat) (conns : List NeuralConnection)
    (h : conns.length < fuel) :
    prunePass (pruneLoopFuel fuel conns) = pruneLoopFuel fuel conns := by
  induction fuel generalizing conns with
  | zero => omega
  | succ f ih =>
    simp only [pruneLoopFuel]
    split
    · rename_i heq
      exact (List.filter_sublist _).eq_of_length heq
    · rename_i hne
      refine ih (prunePass conns) ?_
      have hle := prunePass_length_le conns
      omega

theorem pruneLoop_stable (conns : List NeuralConnection) :
    prunePass (pruneLoop conns) = pruneLoop conns :=
  pruneLoopFuel_stable _ _ (by omega)

/-- Claim C4: after buildNeuralNet, no surviving connection has an internal
neuron source whose neuron is undriven; every neuron marked driven has an
inbound connection in the remaining list; the surviving connections are a
sublist of the genome-order connection list (original order preserved). -/
theorem buildNeuralNet_pruned (genome : List Gene) (maxN : Nat)
    (hN : 1 ≤ maxN) :
    (∀ c ∈ (buildNeuralNet genome maxN).connections, c.sourceType = NEURON →
      ((buildNeuralNet genome maxN).neurons[c.sourceId]?.map Neuron.driven) =
        some true) ∧
    (∀ i : Nat,
      ((buildNeuralNet genome maxN).neurons[i]?.map Neuron.driven) =
        some true →
      ∃ c ∈ (buildNeuralNet genome maxN).connections,
        c.sinkType = NEURON ∧ c.sinkId = i) ∧
    (buildNeuralNet genome maxN).connections.Sublist
      (genome.map (geneToConn maxN)) := by
  refine ⟨?_, ?_, pruneLoop_sublist _⟩
  · intro c hc hsrc
    have hstable := pruneLoop_stable (genome.map (geneToConn maxN))
    have hall := List.filter_eq_self.mp hstable c hc
    have hdriven :
        drivenOf (pruneLoop (genome.map (geneToConn maxN))) c.sourceId =
          true := by
      rcases Bool.eq_false_or_eq_true
        (drivenOf (pruneLoop (genome.map (geneToConn maxN))) c.sourceId) with
        hD | hD
      · exact hD
      · simp [hsrc, hD] at hall
    have hmem : c ∈ genome.map (geneToConn maxN) :=
      (pruneLoop_sublist _).mem hc
    obtain ⟨g, hg, rfl⟩ := List.mem_map.mp hmem
    have hsrc0 : g.sourceType = 0 := by
      simpa [geneToConn, NEURON] using hsrc
    have hlt : (geneToConn maxN g).sourceId < maxN := by
      simp [geneToConn, SENSOR, hsrc0]
      exact Nat.mod_lt _ (by omega)
    simp only [buildNeuralNet, List.getElem?_map, List.getElem?_range hlt]
    simp [hdriven]
  · intro i hi
    simp only [buildNeuralNet, List.getElem?_map, Option.map_map] at hi
    obtain ⟨a, ha, hdrv⟩ := by
      simpa [Option.map_eq_some] using hi
    have hi_lt : i < maxN := by
      by_contra hcon
      rw [List.getElem?_eq_none (by simpa using hcon)] at ha
      exact Option.noConfusion ha
    rw [List.getElem?_range hi_lt] at ha
    obtain rfl : a = i := (Option.some.inj ha).symm
    have hdrv2 : drivenOf (pruneLoop (genome.map (geneToConn maxN))) a =
        true := by simpa using hdrv
    simp only [drivenOf, List.any_eq_true, Bool.and_eq_true,
      beq_iff_eq] at hdrv2
    obtain ⟨c, hc, h1, h2⟩ := hdrv2
    exact ⟨c, by simpa [buildNeuralNet] using hc, h1, h2⟩

/-- Concrete instantiation of the pruning fixed point on a genome whose
three genes form an undriven neuron cycle. -/
theorem buildNeuralNet_pruned_witness :
    1 ≤ 3 ∧
    (∀ c ∈ (buildNeuralNet [⟨0, 0, 0, 1, 100⟩, ⟨0, 1, 0, 2, 100⟩,
        ⟨0, 2, 0, 0, 100⟩] 3).connections, c.sourceType = NEURON →
      ((buildNeuralNet [⟨0, 0, 0, 1, 100⟩, ⟨0, 1, 0, 2, 100⟩,
        ⟨0, 2, 0, 0, 100⟩] 3).neurons[c.sourceId]?.map Neuron.driven) =
        some true) :=
  ⟨by decide,
   (buildNeuralNet_pruned [⟨0, 0, 0, 1, 100⟩, ⟨0, 1, 0, 2, 100⟩,
     ⟨0, 2, 0, 0, 100⟩] 3 (by decide)).1⟩

/- ── Signals (signals.ts, src/unnamed/part_001) ────────────────────── -/

/-- The common in-bounds check 0 ≤ x < sizeX ∧ 0 ≤ y < sizeY. -/
def inBoundsXY (sizeX sizeY : Nat) (loc : Int × Int) : Bool :=
  decide (0 ≤ loc.1) && decide (loc.1 < (sizeX : Int)) &&
  decide (0 ≤ loc.2) && decide (loc.2 < (sizeY : Int))

/-- Row-major flat index y * sizeX + x. -/
def idxXY (sizeX : Nat) (loc : Int × Int) : Nat := (loc.2 * sizeX + loc.1).toNat

/-- The integers from lo to hi inclusive. -/
def intRange (lo hi : Int) : List Int :=
  (List.range (hi - lo + 1).toNat).map fun i => lo + (i : Int)

structure Signals where
  sizeX : Nat
  sizeY : Nat
  numLayers : Nat
  layers : List (List Nat)
deriving Repr, DecidableEq

/-- signals.ts constructor: numLayers zeroed byte layers. -/
def signalsInit (sizeX sizeY numLayers : Nat) : Signals :=
  ⟨sizeX, sizeY, numLayers, List.replicate numLayers (List.replicate (sizeX * sizeY) 0)⟩

/-- signals.ts get. -/
def sigGet (s : Signals) (layerNum : Nat) (loc : Int × Int) : Nat :=
  if inBoundsXY s.sizeX s.sizeY loc && decide (layerNum < s.numLayers) then
    (s.layers.getD layerNum []).getD (idxXY s.sizeX loc) 0
  else 0

/-- signals.ts increment.  The source clamps with
min(255, max(0, round(old + amount))); amount is a nonnegative integer at
every call site, so this is min 255. -/
def sigIncrement (s : Signals) (layerNum : Nat) (loc : Int × Int)
    (amount : Nat) : Signals :=
  if inBoundsXY s.sizeX s.sizeY loc && decide (layerNum < s.numLayers) then
    let layer := s.layers.getD layerNum []
    let i := idxXY s.sizeX loc
    { s with layers := s.layers.set layerNum (layer.set i (min 255 (layer.getD i 0 + amount))) }
  else s

/-- The per-cell emission strength for radius 1.5, the only radius the
program ever passes to emit (the signals.ts default and the explicit 1.5 of
the EMIT_SIGNAL0 action).  The float expression
max(1, Math.round(255 * (1 - Math.sqrt(d2) / 2.5))) evaluates to this table
on the three squared distances that occur; the C7 theorem proves the table
equal to the exact real-arithmetic formula, whose roundings the float
evaluation reproduces (152.99999999999997 → 153, 110.7502… → 111). -/
def emitStrength (d2 : Nat) : Nat :=
  if d2 = 0 then 255 else if d2 = 1 then 153 else 111

/-- The offsets the emit double loop visits, in source order (dx outer, dy
inner); for radius 1.5 the guard dx²+dy² ≤ 2.25 keeps all nine. -/
def emitOffsets : List (Int × Int) :=
  [(-1, -1), (-1, 0), (-1, 1), (0, -1), (0, 0), (0, 1), (1, -1), (1, 0), (1, 1)]

/-- The body of the emit double loop for one offset d. -/
def emitStep (layerNum : Nat) (center : Int × Int) (acc : Signals)
    (d : Int × Int) : Signals :=
  let loc := (center.1 + d.1, center.2 + d.2)
  if inBoundsXY acc.sizeX acc.sizeY loc then
    sigIncrement acc layerNum loc (emitStrength (d.1 * d.1 + d.2 * d.2).toNat)
  else acc

/-- signals.ts emit, specialized to radius 1.5 as invoked by the program. -/
def sigEmit (s : Signals) (layerNum : Nat) (center : Int × Int) : Signals :=
  emitOffsets.foldl (emitStep layerNum center) s

/-- signals.ts fade: each nonzero cell of the layer loses one. -/
def sigFade (s : Signals) (layerNum : Nat) : Signals :=
  if layerNum < s.numLayers then
    let lay := (s.layers.getD layerNum []).map fun v => if 0 < v then v - 1 else v
    { s with layers := s.layers.set layerNum lay }
  else s

/-- signals.ts zeroFill. -/
def sigZeroFill (s : Signals) : Signals :=
  { s with layers := s.layers.map fun lay => lay.map fun _ => 0 }

/-- signals.ts getSignalDensity: mean of the in-bounds circular
neighborhood, over 255. -/
def getSignalDensity (s : Signals) (layerNum : Nat) (center : Int × Int)
    (radius : ℚ) : ℚ :=
  if layerNum < s.numLayers then
    let iR := Int.floor radius
    let cells := (intRange (-iR) iR).flatMap fun dx =>
      (intRange (-iR) iR).filterMap fun dy =>
        if ((dx * dx + dy * dy : Int) : ℚ) ≤ radius * radius then
          some (center.1 + dx, center.2 + dy)
        else none
    let inCells := cells.filter fun loc => inBoundsXY s.sizeX s.sizeY loc
    let total := (inCells.map fun loc =>
      (s.layers.getD layerNum []).getD (idxXY s.sizeX loc) 0).sum
    if 0 < inCells.length then (total : ℚ) / (inCells.length * 255) else 0
  else 0

/-- An emit/fade command, for stating the C7 safety property over arbitrary
operation sequences. -/
inductive SigOp where
  | emit (layerNum : Nat) (center : Int × Int)
  | fade (layerNum : Nat)
deriving Repr, DecidableEq

def applySigOps (s : Signals) : List SigOp → Signals
  | [] => s
  | op :: rest =>
    applySigOps
      (match op with
       | .emit l c => sigEmit s l c
       | .fade l => sigFade s l) rest

/-- Every stored signal byte is at most 255. -/
def SigBounded (s : Signals) : Prop :=
  ∀ lay ∈ s.layers, ∀ v ∈ lay, v ≤ 255

/-- Well-formed signals: the layer list has numLayers layers, each of the
grid size.  The constructor establishes it and every operation keeps it. -/
def WFSignals (s : Signals) : Prop :=
  s.layers.length = s.numLayers ∧ ∀ lay ∈ s.layers, lay.length = s.sizeX * s.sizeY

theorem idxXY_lt (sizeX sizeY : Nat) (loc : Int × Int)
    (h : inBoundsXY sizeX sizeY loc = true) : idxXY sizeX loc < sizeX * sizeY := by
  rcases loc with ⟨x, y⟩
  simp only [inBoundsXY, Bool.and_eq_true, decide_eq_true_eq] at h
  obtain ⟨⟨⟨hx0, hx1⟩, hy0⟩, hy1⟩ := h
  simp only [idxXY]
  have h2 : (y + 1) * (sizeX : Int) ≤ sizeY * sizeX :=
    mul_le_mul_of_nonneg_right (by omega) (by positivity)
  have hlt : y * (sizeX : Int) + x < (sizeX : Int) * sizeY := by nlinarith
  have h0 : (0 : Int) ≤ y * sizeX + x := by positivity
  have hcast : ((y * (sizeX : Int) + x).toNat : Int) < (sizeX : Int) * sizeY := by
    rwa [Int.toNat_of_nonneg h0]
  exact_mod_cast hcast

theorem idxXY_inj (sizeX sizeY : Nat) (a b : Int × Int)
    (ha : inBoundsXY sizeX sizeY a = true) (hb : inBoundsXY sizeX sizeY b = true)
    (h : idxXY sizeX a = idxXY sizeX b) : a = b := by
  rcases a with ⟨ax, ay⟩
  rcases b with ⟨bx, byy⟩
  simp only [inBoundsXY, Bool.and_eq_true, decide_eq_true_eq] at ha hb
  obtain ⟨⟨⟨hax0, hax1⟩, hay0⟩, hay1⟩ := ha
  obtain ⟨⟨⟨hbx0, hbx1⟩, hby0⟩, hby1⟩ := hb
  simp only [idxXY] at h
  have h0a : (0 : Int) ≤ ay * sizeX + ax := by positivity
  have h0b : (0 : Int) ≤ byy * sizeX + bx := by positivity
  have h' : ay * (sizeX : Int) + ax = byy * sizeX + bx := by
    have := congrArg (fun n : Nat => (n : Int)) h
    simpa [Int.toNat_of_nonneg h0a, Int.toNat_of_nonneg h0b] using this
  have hd : (ay - byy) * (sizeX : Int) = bx - ax := by linear_combination h'
  rcases lt_trichotomy ay byy with hlt | heq | hgt
  · exfalso
    have h1 : ay - byy ≤ -1 := by omega
    have h2 : (ay - byy) * (sizeX : Int) ≤ (-1) * sizeX :=
      mul_le_mul_of_nonneg_right h1 (by positivity)
    rw [hd] at h2
    linarith
  · have : ax = bx := by
      rw [heq] at hd
      simp at hd
      linarith
    simp [this, heq]
  · exfalso
    have h1 : (1 : Int) ≤ ay - byy := by omega
    have h2 : (1 : Int) * sizeX ≤ (ay - byy) * sizeX :=
      mul_le_mul_of_nonneg_right h1 (by positivity)
    rw [hd] at h2
    linarith

theorem sigIncrement_fields (s : Signals) (l : Nat) (loc : Int × Int)
    (amt : Nat) :
    (sigIncrement s l loc amt).sizeX = s.sizeX ∧
    (sigIncrement s l loc amt).sizeY = s.sizeY ∧
    (sigIncrement s l loc amt).numLayers = s.numLayers := by
  unfold sigIncrement
  split <;> exact ⟨rfl, rfl, rfl⟩

theorem WFSignals_sigIncrement (s : Signals) (l : Nat) (loc : Int × Int)
    (amt : Nat) (hwf : WFSignals s) : WFSignals (sigIncrement s l loc amt) := by
  obtain ⟨hlen, hlay⟩ := hwf
  unfold sigIncrement
  split
  · refine ⟨by simpa using hlen, ?_⟩
    intro lay hmem
    simp only at hmem
    rcases Nat.lt_or_ge l s.layers.length with hl | hl
    · rcases List.mem_or_eq_of_mem_set hmem with h | h
      · exact hlay lay h
      · subst h
        rw [List.length_set]
        rw [List.getD_eq_getElem s.layers [] hl]
        exact hlay _ (List.getElem_mem hl)
    · rw [List.set_eq_of_length_le hl] at hmem
      exact hlay lay hmem
  · exact ⟨hlen, hlay⟩

theorem sigGet_sigIncrement (s : Signals) (l : Nat) (loc loc2 : Int × Int)
    (amt : Nat) (hwf : WFSignals s) :
    sigGet (sigIncrement s l loc amt) l loc2 =
      if loc2 = loc ∧ inBoundsXY s.sizeX s.sizeY loc = true ∧ l < s.numLayers
      then min 255 (sigGet s l loc + amt)
      else sigGet s l loc2 := by
  obtain ⟨hlen, hlay⟩ := hwf
  by_cases hg : inBoundsXY s.sizeX s.sizeY loc = true ∧ l < s.numLayers
  · obtain ⟨hb, hl⟩ := hg
    have hguard :
        (inBoundsXY s.sizeX s.sizeY loc && decide (l < s.numLayers)) = true := by
      simp [hb, hl]
    have hllen : l < s.layers.length := by omega
    have hlaylen : (s.layers.getD l []).length = s.sizeX * s.sizeY := by
      rw [List.getD_eq_getElem s.layers [] hllen]
      exact hlay _ (List.getElem_mem hllen)
    have hset :
        ((s.layers.set l ((s.layers.getD l []).set (idxXY s.sizeX loc)
            (min 255 ((s.layers.getD l []).getD (idxXY s.sizeX loc) 0 + amt)))).getD l []) =
          (s.layers.getD l []).set (idxXY s.sizeX loc)
            (min 255 ((s.layers.getD l []).getD (idxXY s.sizeX loc) 0 + amt)) := by
      rw [List.getD_eq_getElem?_getD, List.getElem?_set_self hllen]
      rfl
    by_cases hb2 : inBoundsXY s.sizeX s.sizeY loc2 = true
    · by_cases heq : loc2 = loc
      · subst heq
        rw [if_pos ⟨rfl, hb, hl⟩]
        have hidx : idxXY s.sizeX loc2 < (s.layers.getD l []).length := by
          rw [hlaylen]; exact idxXY_lt _ _ _ hb
        simp only [sigIncrement, hguard, if_pos, sigGet]
        rw [hset, List.getD_eq_getElem?_getD, List.getElem?_set_self hidx]
        simp [hguard]
      · rw [if_neg (by rintro ⟨h, _, _⟩; exact heq h)]
        have hidxne : idxXY s.sizeX loc2 ≠ idxXY s.sizeX loc := by
          intro hcon
          exact heq (idxXY_inj s.sizeX s.sizeY loc2 loc hb2 hb hcon)
        simp only [sigIncrement, hguard, if_pos, sigGet]
        rw [hset, List.getD_eq_getElem?_getD,
          List.getElem?_set_ne (fun h => hidxne h.symm)]
        simp [List.getD_eq_getElem?_getD]
    · rw [if_neg (by rintro ⟨rfl, hcb, _⟩; exact hb2 hcb)]
      simp only [sigIncrement, hguard, if_pos, sigGet, hb2]
      simp
  · have hng :
        ¬ (inBoundsXY s.sizeX s.sizeY loc && decide (l < s.numLayers)) = true := by
      simp only [Bool.and_eq_true, decide_eq_true_eq]
      exact hg
    rw [if_neg (by rintro ⟨_, hcb, hcl⟩; exact hg ⟨hcb, hcl⟩)]
    simp only [sigIncrement, hng, if_neg, ite_false]
    rfl

theorem emitStep_sizeX (l : Nat) (c : Int × Int) (s : Signals) (d : Int × Int) :
    (emitStep l c s d).sizeX = s.sizeX := by
  simp only [emitStep]
  split
  · exact (sigIncrement_fields _ _ _ _).1
  · rfl

theorem emitStep_sizeY (l : Nat) (c : Int × Int) (s : Signals) (d : Int × Int) :
    (emitStep l c s d).sizeY = s.sizeY := by
  simp only [emitStep]
  split
  · exact (sigIncrement_fields _ _ _ _).2.1
  · rfl

theorem emitStep_numLayers (l : Nat) (c : Int × Int) (s : Signals)
    (d : Int × Int) : (emitStep l c s d).numLayers = s.numLayers := by
  simp only [emitStep]
  split
  · exact (sigIncrement_fields _ _ _ _).2.2
  · rfl

theorem WFSignals_emitStep (l : Nat) (c : Int × Int) (s : Signals)
    (d : Int × Int) (hwf : WFSignals s) : WFSignals (emitStep l c s d) := by
  simp only [emitStep]
  split
  · exact WFSignals_sigIncrement _ _ _ _ hwf
  · exact hwf

theorem sigGet_emitStep_ne (l : Nat) (c : Int × Int) (s : Signals)
    (d : Int × Int) (loc : Int × Int) (hwf : WFSignals s)
    (hne : (c.1 + d.1, c.2 + d.2) ≠ loc) :
    sigGet (emitStep l c s d) l loc = sigGet s l loc := by
  simp only [emitStep]
  split
  · rw [sigGet_sigIncrement _ _ _ _ _ hwf]
    rw [if_neg (by rintro ⟨heq, _, _⟩; exact hne heq.symm)]
  · rfl

theorem sigGet_foldl_untouched (l : Nat) (c : Int × Int)
    (ds : List (Int × Int)) (s : Signals) (loc : Int × Int)
    (hwf : WFSignals s)
    (h : ∀ d ∈ ds, (c.1 + d.1, c.2 + d.2) ≠ loc) :
    sigGet (ds.foldl (emitStep l c) s) l loc = sigGet s l loc := by
  induction ds generalizing s with
  | nil => rfl
  | cons d ds ih =>
    rw [List.foldl_cons]
    rw [ih _ (WFSignals_emitStep _ _ _ _ hwf)
      (fun d' hd' => h d' (List.mem_cons_of_mem _ hd'))]
    exact sigGet_emitStep_ne _ _ _ _ _ hwf (h d (List.mem_cons_self _ _))


theorem sigGet_foldl_emit (l : Nat) (c : Int × Int) (ds : List (Int × Int))
    (s : Signals) (loc : Int × Int) (hwf : WFSignals s)
    (hl : l < s.numLayers) (hloc : inBoundsXY s.sizeX s.sizeY loc = true)
    (hnd : ds.Nodup) :
    sigGet (ds.foldl (emitStep l c) s) l loc =
      if (loc.1 - c.1, loc.2 - c.2) ∈ ds then
        min 255 (sigGet s l loc +
          emitStrength ((loc.1 - c.1) * (loc.1 - c.1) +
            (loc.2 - c.2) * (loc.2 - c.2)).toNat)
      else sigGet s l loc := by
  induction ds generalizing s with
  | nil => simp
  | cons d ds ih =>
    rw [List.foldl_cons]
    by_cases hd : (loc.1 - c.1, loc.2 - c.2) = d
    · have htarget : (c.1 + d.1, c.2 + d.2) = loc := by
        rcases loc with ⟨lx, ly⟩
        rcases c with ⟨cx, cy⟩
        rcases d with ⟨dx, dy⟩
        simp only [Prod.mk.injEq] at hd ⊢
        omega
      have hnotmem : (loc.1 - c.1, loc.2 - c.2) ∉ ds := by
        rw [hd]; exact (List.nodup_cons.mp hnd).1
      rw [if_pos (List.mem_cons.mpr (Or.inl hd))]
      rw [sigGet_foldl_untouched l c ds _ loc
        (WFSignals_emitStep _ _ _ _ hwf)
        (fun d' hd' heq => by
          have : d' = d := by
            rcases loc with ⟨lx, ly⟩
            rcases c with ⟨cx, cy⟩
            rcases d with ⟨dx, dy⟩
            rcases d' with ⟨ex, ey⟩
            simp only [Prod.mk.injEq] at hd heq ⊢
            omega
          exact (List.nodup_cons.mp hnd).1 (this ▸ hd'))]
      unfold emitStep
      rw [if_pos (by rw [htarget]; exact hloc)]
      rw [sigGet_sigIncrement _ _ _ _ _ hwf]
      rw [if_pos ⟨htarget.symm, htarget ▸ hloc, hl⟩]
      have harg : d.1 * d.1 + d.2 * d.2 =
          (loc.1 - c.1) * (loc.1 - c.1) + (loc.2 - c.2) * (loc.2 - c.2) := by
        rw [← hd]
      rw [harg, htarget]
    · have hne_target : (c.1 + d.1, c.2 + d.2) ≠ loc := by
        intro hcon
        apply hd
        rcases loc with ⟨lx, ly⟩
        rcases c with ⟨cx, cy⟩
        rcases d with ⟨dx, dy⟩
        simp only [Prod.mk.injEq] at hcon ⊢
        omega
      have hwf2 := WFSignals_emitStep l c s d hwf
      have ih2 := ih (emitStep l c s d) hwf2
        (by rw [emitStep_numLayers]; exact hl)
        (by rw [emitStep_sizeX, emitStep_sizeY]; exact hloc)
        (List.nodup_cons.mp hnd).2
      rw [ih2, sigGet_emitStep_ne _ _ _ _ _ hwf hne_target]
      simp [List.mem_cons, hd]

theorem mem_emitOffsets_iff (d : Int × Int) :
    d ∈ emitOffsets ↔ d.1 * d.1 + d.2 * d.2 ≤ 2 := by
  constructor
  · intro h
    fin_cases h <;> norm_num
  · rcases d with ⟨dx, dy⟩
    intro h
    simp only at h
    have hx2 : dx * dx ≤ 2 := by nlinarith [mul_self_nonneg dy]
    have hy2 : dy * dy ≤ 2 := by nlinarith [mul_self_nonneg dx]
    have hx : -1 ≤ dx ∧ dx ≤ 1 := by
      constructor
      · nlinarith [mul_self_nonneg (dx + 1)]
      · nlinarith [mul_self_nonneg (dx - 1)]
    have hy : -1 ≤ dy ∧ dy ≤ 1 := by
      constructor
      · nlinarith [mul_self_nonneg (dy + 1)]
      · nlinarith [mul_self_nonneg (dy - 1)]
    obtain ⟨hx1, hx2'⟩ := hx
    obtain ⟨hy1, hy2'⟩ := hy
    interval_cases dx <;> interval_cases dy <;> decide

theorem sigBounded_sigIncrement (s : Signals) (l : Nat) (loc : Int × Int)
    (amt : Nat) (hB : SigBounded s) : SigBounded (sigIncrement s l loc amt) := by
  intro lay hmem v hv
  by_cases hg :
      (inBoundsXY s.sizeX s.sizeY loc && decide (l < s.numLayers)) = true
  · simp only [sigIncrement, hg, if_pos] at hmem
    rcases List.mem_or_eq_of_mem_set hmem with h | h
    · exact hB lay h v hv
    · subst h
      rcases List.mem_or_eq_of_mem_set hv with h2 | h2
      · rcases Nat.lt_or_ge l s.layers.length with hl | hl
        · rw [List.getD_eq_getElem s.layers [] hl] at h2
          exact hB _ (List.getElem_mem hl) v h2
        · rw [List.getD_eq_default s.layers [] hl] at h2
          simp at h2
      · subst h2
        exact min_le_left _ _
  · simp only [sigIncrement, hg, if_neg, ite_false] at hmem
    exact hB lay hmem v hv

theorem sigBounded_emitStep (l : Nat) (c : Int × Int) (s : Signals)
    (d : Int × Int) (hB : SigBounded s) : SigBounded (emitStep l c s d) := by
  simp only [emitStep]
  split
  · exact sigBounded_sigIncrement _ _ _ _ hB
  · exact hB

theorem sigBounded_sigEmit (s : Signals) (l : Nat) (c : Int × Int)
    (hB : SigBounded s) : SigBounded (sigEmit s l c) := by
  unfold sigEmit
  generalize emitOffsets = ds
  induction ds generalizing s with
  | nil => exact hB
  | cons d ds ih =>
    rw [List.foldl_cons]
    exact ih _ (sigBounded_emitStep _ _ _ _ hB)

theorem sigBounded_sigFade (s : Signals) (l : Nat) (hB : SigBounded s) :
    SigBounded (sigFade s l) := by
  intro lay hmem v hv
  by_cases hl : l < s.numLayers
  · simp only [sigFade, hl, if_pos] at hmem
    rcases List.mem_or_eq_of_mem_set hmem with h | h
    · exact hB lay h v hv
    · subst h
      obtain ⟨u, hu, rfl⟩ := List.mem_map.mp hv
      have hu255 : u ≤ 255 := by
        rcases Nat.lt_or_ge l s.layers.length with hll | hll
        · rw [List.getD_eq_getElem s.layers [] hll] at hu
          exact hB _ (List.getElem_mem hll) u hu
        · rw [List.getD_eq_default s.layers [] hll] at hu
          simp at hu
      split <;> omega
  · simp only [sigFade, hl, if_neg, ite_false] at hmem
    exact hB lay hmem v hv

theorem sigBounded_signalsInit (sx sy n : Nat) :
    SigBounded (signalsInit sx sy n) := by
  intro lay hmem v hv
  simp only [signalsInit] at hmem
  rw [List.eq_of_mem_replicate hmem] at hv
  rw [List.eq_of_mem_replicate hv]
  omega

theorem sigBounded_applySigOps (s : Signals) (ops : List SigOp)
    (hB : SigBounded s) : SigBounded (applySigOps s ops) := by
  induction ops generalizing s with
  | nil => exact hB
  | cons op rest ih =>
    cases op with
    | emit l c => exact ih _ (sigBounded_sigEmit _ _ _ hB)
    | fade l => exact ih _ (sigBounded_sigFade _ _ hB)

theorem sigGet_sigFade (s : Signals) (l : Nat) (loc : Int × Int)
    (hwf : WFSignals s) (hl : l < s.numLayers)
    (hloc : inBoundsXY s.sizeX s.sizeY loc = true) :
    sigGet (sigFade s l) l loc = sigGet s l loc - 1 := by
  obtain ⟨hlen, hlay⟩ := hwf
  have hllen : l < s.layers.length := by omega
  have hguard :
      (inBoundsXY s.sizeX s.sizeY loc && decide (l < s.numLayers)) = true := by
    simp [hloc, hl]
  have hlaylen : (s.layers.getD l []).length = s.sizeX * s.sizeY := by
    rw [List.getD_eq_getElem s.layers [] hllen]
    exact hlay _ (List.getElem_mem hllen)
  have hidx : idxXY s.sizeX loc < (s.layers.getD l []).length := by
    rw [hlaylen]; exact idxXY_lt _ _ _ hloc
  have h1 : sigFade s l =
      { s with layers := s.layers.set l ((s.layers.getD l []).map fun v =>
          if 0 < v then v - 1 else v) } := by
    simp [sigFade, hl]
  rw [h1]
  simp only [sigGet]
  rw [if_pos hguard]
  rw [if_pos hguard]
  have hset :
      ((s.layers.set l ((s.layers.getD l []).map fun v =>
          if 0 < v then v - 1 else v)).getD l []) =
        (s.layers.getD l []).map fun v => if 0 < v then v - 1 else v := by
    rw [List.getD_eq_getElem?_getD, List.getElem?_set_self hllen]
    rfl
  rw [hset, List.getD_eq_getElem?_getD, List.getElem?_map,
    List.getElem?_eq_getElem hidx]
  rw [List.getD_eq_getElem (s.layers.getD l []) 0 hidx]
  simp only [Option.map_some', Option.getD_some]
  split <;> omega

instance (s : Signals) : Decidable (WFSignals s) := by
  unfold WFSignals; infer_instance

/-- Claim C7: from zeroed layers, every cell stays in [0,255] under any
sequence of emits and fades; an emit increments each in-bounds cell of the
radius-1.5 circular neighborhood by max(1, round(255*(1 - dist/(radius+1))))
saturating at 255 and leaves all other cells unchanged; a fade decrements
each nonzero cell by exactly 1 with a floor of 0. -/
theorem signals_bounds :
    (∀ (sx sy n : Nat) (ops : List SigOp),
      ∀ lay ∈ (applySigOps (signalsInit sx sy n) ops).layers,
      ∀ v ∈ lay, 0 ≤ v ∧ v ≤ 255) ∧
    (∀ (s : Signals) (l : Nat) (c loc : Int × Int), WFSignals s →
      l < s.numLayers → inBoundsXY s.sizeX s.sizeY loc = true →
      sigGet (sigEmit s l c) l loc =
        if (loc.1 - c.1) * (loc.1 - c.1) + (loc.2 - c.2) * (loc.2 - c.2) ≤ 2
        then
          min 255 (sigGet s l loc + emitStrength
            ((loc.1 - c.1) * (loc.1 - c.1) +
              (loc.2 - c.2) * (loc.2 - c.2)).toNat)
        else sigGet s l loc) ∧
    (∀ d2 : Nat, d2 ≤ 2 →
      (emitStrength d2 : ℤ) =
        max 1 (round ((255 : ℝ) * (1 - Real.sqrt d2 / (3/2 + 1))))) ∧
    (∀ (s : Signals) (l : Nat) (loc : Int × Int), WFSignals s →
      l < s.numLayers → inBoundsXY s.sizeX s.sizeY loc = true →
      sigGet (sigFade s l) l loc = sigGet s l loc - 1) := by
  refine ⟨?_, ?_, ?_, sigGet_sigFade⟩
  · intro sx sy n ops lay hlay v hv
    exact ⟨Nat.zero_le v,
      sigBounded_applySigOps _ _ (sigBounded_signalsInit sx sy n) lay hlay v hv⟩
  · intro s l c loc hwf hl hloc
    unfold sigEmit
    rw [sigGet_foldl_emit l c emitOffsets s loc hwf hl hloc (by decide)]
    by_cases hmem : (loc.1 - c.1, loc.2 - c.2) ∈ emitOffsets
    · rw [if_pos hmem, if_pos (by simpa using (mem_emitOffsets_iff _).mp hmem)]
    · rw [if_neg hmem,
        if_neg (by
          intro hcon
          exact hmem ((mem_emitOffsets_iff _).mpr (by simpa using hcon)))]
  · intro d2 h
    interval_cases d2
    · simp only [Nat.cast_zero, Real.sqrt_zero]
      have he : (255 : ℝ) * (1 - 0 / (3/2 + 1)) = 255 := by norm_num
      rw [he]
      have hr : round ((255 : ℝ)) = 255 := by
        rw [round_eq]; norm_num
      rw [hr]
      simp [emitStrength]
    · simp only [Nat.cast_one, Real.sqrt_one]
      have he : (255 : ℝ) * (1 - 1 / (3/2 + 1)) = 153 := by norm_num
      rw [he]
      have hr : round ((153 : ℝ)) = 153 := by
        rw [round_eq]; norm_num
      rw [hr]
      simp [emitStrength]
    · have hsq := Real.sq_sqrt (show (0:ℝ) ≤ 2 by norm_num)
      have h0 := Real.sqrt_nonneg 2
      have hub : Real.sqrt 2 < 1.41422 := by nlinarith
      have hlb : (1.41421 : ℝ) < Real.sqrt 2 := by nlinarith
      have he : (255:ℝ) * (1 - Real.sqrt 2 / (3/2 + 1)) =
          255 - 102 * Real.sqrt 2 := by ring
      rw [Nat.cast_ofNat, he]
      have hr : round ((255 : ℝ) - 102 * Real.sqrt 2) = 111 := by
        rw [round_eq, Int.floor_eq_iff]
        constructor
        · push_cast; linarith
        · push_cast; linarith
      rw [hr]
      simp [emitStrength]

/-- Concrete instantiation of the emit characterization at the center cell
of a small zeroed world. -/
theorem signals_bounds_witness :
    sigGet (sigEmit (signalsInit 4 4 1) 0 (1, 1)) 0 (1, 1) =
      if ((1 : Int) - 1) * (1 - 1) + ((1 : Int) - 1) * (1 - 1) ≤ 2 then
        min 255 (sigGet (signalsInit 4 4 1) 0 (1, 1) + emitStrength
          (((1 : Int) - 1) * (1 - 1) + ((1 : Int) - 1) * (1 - 1)).toNat)
      else sigGet (signalsInit 4 4 1) 0 (1, 1) :=
  signals_bounds.2.1 (signalsInit 4 4 1) 0 (1, 1) (1, 1) (by decide) (by decide)
    (by decide)

/- ── Grid (grid.ts, src/unnamed/part_002) ──────────────────────────── -/

def EMPTY : Nat := 0

def BARRIER : Nat := 0xFFFF

structure Grid where
  sizeX : Nat
  sizeY : Nat
  data : List Nat
deriving Repr, DecidableEq

/-- grid.ts constructor: a zeroed sizeX*sizeY Uint16Array. -/
def gridInit (sizeX sizeY : Nat) : Grid :=
  ⟨sizeX, sizeY, List.replicate (sizeX * sizeY) 0⟩

/-- grid.ts at.  The raw JS read of an out-of-range index yields undefined;
every call site guards with isInBounds first (directly or by construction of
the location), so the 0 default of this model is never observed. -/
def gridAt (g : Grid) (loc : Int × Int) : Nat :=
  if inBoundsXY g.sizeX g.sizeY loc then g.data.getD (idxXY g.sizeX loc) 0
  else 0

/-- grid.ts set.  A JS typed array silently drops out-of-range writes, which
the explicit guard models; stores truncate to 16 bits. -/
def gridSet (g : Grid) (loc : Int × Int) (val : Nat) : Grid :=
  if inBoundsXY g.sizeX g.sizeY loc then
    { g with data := g.data.set (idxXY g.sizeX loc) (val % 65536) }
  else g

def gridIsEmptyAt (g : Grid) (loc : Int × Int) : Bool := gridAt g loc == EMPTY

def gridIsBarrierAt (g : Grid) (loc : Int × Int) : Bool := gridAt g loc == BARRIER

def gridIsOccupiedAt (g : Grid) (loc : Int × Int) : Bool :=
  !(gridAt g loc == EMPTY) && !(gridAt g loc == BARRIER)

/-- grid.ts clear: fill with EMPTY. -/
def gridClear (g : Grid) : Grid := { g with data := g.data.map fun _ => 0 }

/- ── SimParams (config.ts) ─────────────────────────────────────────── -/

/-- config.ts SimParams.  Fractional options are exact rationals; the field
deletionFraction carries the config key spelled deletionRatio in the
source. -/
structure SimParams where
  population : Nat
  stepsPerGeneration : Nat
  maxGenerations : Nat
  sizeX : Nat
  sizeY : Nat
  genomeInitialLengthMin : Nat
  genomeInitialLengthMax : Nat
  genomeMaxLength : Nat
  maxNumberNeurons : Nat
  pointMutationRate : ℚ
  geneInsertionDeletionRate : ℚ
  deletionFraction : ℚ
  sexualReproduction : Bool
  chooseParentsByFitness : Bool
  survivalCriteria : List Nat
  barrierType : Nat
  responsivenessCurveKFactor : ℚ
  signalLayers : Nat
  signalSensorRadius : ℚ
  longProbeDistance : Nat
  shortProbeBarrierDistance : Nat
  displayScale : Nat
  updateGraphLog : Bool
  updateGraphLogStride : Nat
  displaySampleGenomes : Nat
  killEnable : Bool
  rngSeed : Nat
  populationSensorRadius : ℚ
deriving Repr, DecidableEq

/- ── Directions (types.ts Dir) ─────────────────────────────────────── -/

/-- Compass.CENTER. -/
def CENTER : Nat := 8

/-- types.ts Dir.rotate; CENTER is fixed. -/
def dirRotate (dir9 : Nat) (n : Int) : Nat :=
  if dir9 = CENTER then CENTER
  else ((((dir9 : Int) + n) % 8 + 8) % 8).toNat

def dirRotate90CW (dir9 : Nat) : Nat := dirRotate dir9 2

def dirRotate90CCW (dir9 : Nat) : Nat := dirRotate dir9 (-2)

def dirRotate180 (dir9 : Nat) : Nat := dirRotate dir9 4

/-- types.ts DIR_AS_COORD. -/
def DIR_AS_COORD : List (Int × Int) :=
  [(0, -1), (1, -1), (1, 0), (1, 1), (0, 1), (-1, 1), (-1, 0), (-1, -1), (0, 0)]

def dirAsCoord (dir9 : Nat) : Int × Int := DIR_AS_COORD.getD dir9 (0, 0)

/-- types.ts Dir.random: floor of a uniform [0,1) draw times 8. -/
def dirRandom (st : PRNGState) : Nat × PRNGState :=
  let r := nextUint32 st
  (r.1 * 8 / 4294967296, r.2)

/-- actions.ts coordToCompass (part_003). -/
def coordToCompass (dx dy : Int) : Nat :=
  if dx = 0 ∧ dy = -1 then 0
  else if dx = 1 ∧ dy = -1 then 1
  else if dx = 1 ∧ dy = 0 then 2
  else if dx = 1 ∧ dy = 1 then 3
  else if dx = 0 ∧ dy = 1 then 4
  else if dx = -1 ∧ dy = 1 then 5
  else if dx = -1 ∧ dy = 0 then 6
  else if dx = -1 ∧ dy = -1 then 7
  else CENTER

/- ── Indiv (indiv.ts) ──────────────────────────────────────────────── -/

structure Indiv where
  index : Nat
  alive : Bool
  loc : Int × Int
  birthLoc : Int × Int
  lastMoveDir : Nat
  genome : List Gene
  nnet : NeuralNet
  age : Nat
  responsiveness : ℚ
  oscPeriod : Nat
  longProbeDist : Nat
  challengeBits : Nat
  lastDirection : Nat
deriving Repr, DecidableEq

/-- indiv.ts createIndiv. -/
def createIndiv (index : Nat) (genome : List Gene) (loc : Int × Int)
    (params : SimParams) : Indiv :=
  { index
    alive := true
    loc
    birthLoc := loc
    lastMoveDir := CENTER
    genome
    nnet := buildNeuralNet genome params.maxNumberNeurons
    age := 0
    responsiveness := 1/2
    oscPeriod := 34
    longProbeDist := params.longProbeDistance
    challengeBits := 0
    lastDirection := CENTER }

/- ── Peeps (peeps.ts, inside src/lib/biosim4/neural-net.ts bundle) ─── -/

structure Peeps where
  individuals : List (Option Indiv)
  deathQueue : List Nat
  moveQueue : List (Nat × (Int × Int))
deriving Repr, DecidableEq

/-- peeps.ts get: an out-of-range JS array read is undefined, i.e. none. -/
def peepsGet (p : Peeps) (index : Nat) : Option Indiv :=
  p.individuals.getD index none

/-- peeps.ts queueMove. -/
def queueMove (p : Peeps) (indivIndex : Nat) (newLoc : Int × Int) : Peeps :=
  { p with moveQueue := p.moveQueue ++ [(indivIndex, newLoc)] }

/-- peeps.ts queueDeath. -/
def queueDeath (p : Peeps) (indivIndex : Nat) : Peeps :=
  { p with deathQueue := p.deathQueue ++ [indivIndex] }

/-- One iteration of the drainDeathQueue loop: if the indexed individual
exists and is alive, clear its grid cell, mark it dead, count the death. -/
def drainDeathStep (st : Peeps × Grid × Nat) (idx : Nat) : Peeps × Grid × Nat :=
  match peepsGet st.1 idx with
  | some ind =>
    if ind.alive then
      ({ st.1 with individuals :=
          st.1.individuals.set idx (some { ind with alive := false }) },
       gridSet st.2.1 ind.loc 0, st.2.2 + 1)
    else st
  | none => st

/-- peeps.ts drainDeathQueue: process every queued death in order, then
empty the queue; returns the death count as well. -/
def drainDeathQueue (p : Peeps) (g : Grid) : Peeps × Grid × Nat :=
  let r := p.deathQueue.foldl drainDeathStep (p, g, 0)
  ({ r.1 with deathQueue := [] }, r.2.1, r.2.2)

/-- One iteration of the drainMoveQueue loop: a move whose agent is missing
or dead, or whose destination is out of bounds or not empty, is dropped;
otherwise the source cell is cleared, the destination written, and the
agent relocated. -/
def drainMoveStep (st : Peeps × Grid) (rec : Nat × (Int × Int)) :
    Peeps × Grid :=
  match peepsGet st.1 rec.1 with
  | some ind =>
    if ind.alive then
      if inBoundsXY st.2.sizeX st.2.sizeY rec.2 && gridIsEmptyAt st.2 rec.2 then
        ({ st.1 with individuals :=
            st.1.individuals.set rec.1 (some { ind with loc := rec.2 }) },
         gridSet (gridSet st.2 ind.loc 0) rec.2 rec.1)
      else st
    else st
  | none => st

/-- peeps.ts drainMoveQueue. -/
def drainMoveQueue (p : Peeps) (g : Grid) : Peeps × Grid :=
  let r := p.moveQueue.foldl drainMoveStep (p, g)
  ({ r.1 with moveQueue := [] }, r.2)

/- ── The grid/population consistency invariant ─────────────────────── -/

/-- Well-formed world: the grid buffer has the right length, and every
living individual sits in bounds at a cell that stores its (1-based,
below-barrier) index.  This is established at population placement and
preserved by every step; it immediately makes living locations pairwise
distinct. -/
def WFWorld (g : Grid) (p : Peeps) : Prop :=
  g.data.length = g.sizeX * g.sizeY ∧
  ∀ i < p.individuals.length, ∀ ind : Indiv,
    p.individuals.getD i none = some ind → ind.alive = true →
    inBoundsXY g.sizeX g.sizeY ind.loc = true ∧ 1 ≤ i ∧ i < 65535 ∧
    gridAt g ind.loc = i

instance (g : Grid) (p : Peeps) : Decidable (WFWorld g p) := by
  unfold WFWorld; infer_instance

theorem gridSet_sizeX (g : Grid) (loc : Int × Int) (v : Nat) :
    (gridSet g loc v).sizeX = g.sizeX := by
  unfold gridSet; split <;> rfl

theorem gridSet_sizeY (g : Grid) (loc : Int × Int) (v : Nat) :
    (gridSet g loc v).sizeY = g.sizeY := by
  unfold gridSet; split <;> rfl

theorem gridSet_data_length (g : Grid) (loc : Int × Int) (v : Nat) :
    (gridSet g loc v).data.length = g.data.length := by
  unfold gridSet; split
  · exact List.length_set g.data _ _
  · rfl

theorem gridAt_gridSet (g : Grid) (loc loc2 : Int × Int) (v : Nat)
    (hlen : g.data.length = g.sizeX * g.sizeY)
    (hloc : inBoundsXY g.sizeX g.sizeY loc = true) :
    gridAt (gridSet g loc v) loc2 =
      if loc2 = loc then v % 65536 else gridAt g loc2 := by
  simp only [gridSet, hloc, if_pos]
  by_cases hb2 : inBoundsXY g.sizeX g.sizeY loc2 = true
  · by_cases heq : loc2 = loc
    · subst heq
      rw [if_pos rfl]
      simp only [gridAt, hb2, if_pos]
      have hidx : idxXY g.sizeX loc2 < g.data.length := by
        rw [hlen]; exact idxXY_lt _ _ _ hb2
      rw [List.getD_eq_getElem?_getD, List.getElem?_set_self hidx]
      rfl
    · rw [if_neg heq]
      simp only [gridAt, hb2, if_pos]
      have hne : idxXY g.sizeX loc2 ≠ idxXY g.sizeX loc := fun hcon =>
        heq (idxXY_inj g.sizeX g.sizeY loc2 loc hb2 hloc hcon)
      rw [List.getD_eq_getElem?_getD,
        List.getElem?_set_ne (fun h => hne h.symm),
        ← List.getD_eq_getElem?_getD]
  · rw [if_neg (by rintro rfl; exact hb2 hloc)]
    simp [gridAt, hb2]

theorem peepsGet_lt_length (p : Peeps) (idx : Nat) (ind : Indiv)
    (h : peepsGet p idx = some ind) : idx < p.individuals.length := by
  by_contra hcon
  rw [peepsGet, List.getD_eq_default _ _ (by omega)] at h
  exact Option.noConfusion h

theorem drainDeathStep_invariant (st : Peeps × Grid × Nat) (idx : Nat)
    (h : WFWorld st.2.1 st.1) :
    WFWorld (drainDeathStep st idx).2.1 (drainDeathStep st idx).1 ∧
    (drainDeathStep st idx).2.1.sizeX = st.2.1.sizeX ∧
    (drainDeathStep st idx).2.1.sizeY = st.2.1.sizeY ∧
    (∀ loc, gridAt st.2.1 loc = BARRIER →
      gridAt (drainDeathStep st idx).2.1 loc = BARRIER) := by
  obtain ⟨hlen, hwf⟩ := h
  cases hind : peepsGet st.1 idx with
  | none => simp [drainDeathStep, hind]; exact ⟨hlen, hwf⟩
  | some ind =>
    by_cases halive : ind.alive = true
    · have hidxlen : idx < st.1.individuals.length := peepsGet_lt_length _ _ _ hind
      obtain ⟨hbnd, hge1, hlt, hcell⟩ := hwf idx hidxlen ind hind halive
      simp only [drainDeathStep, hind, halive, if_pos]
      refine ⟨⟨?_, ?_⟩, gridSet_sizeX _ _ _, gridSet_sizeY _ _ _, ?_⟩
      · rw [gridSet_data_length, hlen, gridSet_sizeX, gridSet_sizeY]
      · intro j hj ind2 hind2 halive2
        rw [List.length_set] at hj
        by_cases hji : j = idx
        · subst hji
          rw [List.getD_eq_getElem?_getD, List.getElem?_set_self hidxlen] at hind2
          simp at hind2
          rw [← hind2] at halive2
          simp at halive2
        · rw [List.getD_eq_getElem?_getD,
            List.getElem?_set_ne (fun hcon => hji hcon.symm),
            ← List.getD_eq_getElem?_getD] at hind2
          obtain ⟨hbnd2, hge2, hlt2, hcell2⟩ := hwf j hj ind2 hind2 halive2
          have hlocne : ind2.loc ≠ ind.loc := by
            intro hcon
            rw [hcon, hcell] at hcell2
            exact hji hcell2.symm
          rw [gridSet_sizeX, gridSet_sizeY]
          refine ⟨hbnd2, hge2, hlt2, ?_⟩
          rw [gridAt_gridSet _ _ _ _ hlen hbnd, if_neg hlocne]
          exact hcell2
      · intro loc hbar
        have hlocne : loc ≠ ind.loc := by
          intro hcon
          rw [hcon, hcell] at hbar
          simp only [BARRIER] at hbar
          omega
        rw [gridAt_gridSet _ _ _ _ hlen hbnd, if_neg hlocne]
        exact hbar
    · simp only [drainDeathStep, hind, halive, if_neg, ite_false]
      exact ⟨⟨hlen, hwf⟩, rfl, rfl, fun loc hb => hb⟩

theorem drainDeath_fold_invariant (queue : List Nat) (st : Peeps × Grid × Nat)
    (h : WFWorld st.2.1 st.1) :
    WFWorld (queue.foldl drainDeathStep st).2.1
      (queue.foldl drainDeathStep st).1 ∧
    (queue.foldl drainDeathStep st).2.1.sizeX = st.2.1.sizeX ∧
    (queue.foldl drainDeathStep st).2.1.sizeY = st.2.1.sizeY ∧
    (∀ loc, gridAt st.2.1 loc = BARRIER →
      gridAt (queue.foldl drainDeathStep st).2.1 loc = BARRIER) := by
  induction queue generalizing st with
  | nil => exact ⟨h, rfl, rfl, fun loc hb => hb⟩
  | cons idx rest ih =>
    obtain ⟨h1, hx, hy, hbar⟩ := drainDeathStep_invariant st idx h
    obtain ⟨h2, hx2, hy2, hbar2⟩ := ih (drainDeathStep st idx) h1
    rw [List.foldl_cons]
    exact ⟨h2, hx2.trans hx, hy2.trans hy, fun loc hb => hbar2 loc (hbar loc hb)⟩

theorem drainMoveStep_invariant (st : Peeps × Grid) (rec : Nat × (Int × Int))
    (h : WFWorld st.2 st.1) :
    WFWorld (drainMoveStep st rec).2 (drainMoveStep st rec).1 ∧
    (drainMoveStep st rec).2.sizeX = st.2.sizeX ∧
    (drainMoveStep st rec).2.sizeY = st.2.sizeY ∧
    (∀ loc, gridAt st.2 loc = BARRIER →
      gridAt (drainMoveStep st rec).2 loc = BARRIER) := by
  obtain ⟨hlen, hwf⟩ := h
  cases hind : peepsGet st.1 rec.1 with
  | none =>
    have hEq : drainMoveStep st rec = st := by simp [drainMoveStep, hind]
    rw [hEq]
    exact ⟨⟨hlen, hwf⟩, rfl, rfl, fun _ hb => hb⟩
  | some ind =>
    by_cases halive : ind.alive = true
    · by_cases hguard :
          (inBoundsXY st.2.sizeX st.2.sizeY rec.2 && gridIsEmptyAt st.2 rec.2) = true
      · obtain ⟨hbdest, hempty⟩ := Bool.and_eq_true_iff.mp hguard
        have hdest0 : gridAt st.2 rec.2 = 0 := by
          simpa [gridIsEmptyAt, EMPTY] using hempty
        have hidxlen : rec.1 < st.1.individuals.length :=
          peepsGet_lt_length _ _ _ hind
        obtain ⟨hbnd, hge1, hlt, hcell⟩ := hwf rec.1 hidxlen ind hind halive
        simp only [drainMoveStep, hind, halive, hguard, if_pos]
        have hlen1 : (gridSet st.2 ind.loc 0).data.length =
            (gridSet st.2 ind.loc 0).sizeX * (gridSet st.2 ind.loc 0).sizeY := by
          rw [gridSet_data_length, gridSet_sizeX, gridSet_sizeY]; exact hlen
        have hbdest1 : inBoundsXY (gridSet st.2 ind.loc 0).sizeX
            (gridSet st.2 ind.loc 0).sizeY rec.2 = true := by
          rw [gridSet_sizeX, gridSet_sizeY]; exact hbdest
        have hat2 : ∀ loc2, gridAt (gridSet (gridSet st.2 ind.loc 0) rec.2 rec.1) loc2 =
            if loc2 = rec.2 then rec.1 % 65536
            else if loc2 = ind.loc then 0 % 65536 else gridAt st.2 loc2 := by
          intro loc2
          rw [gridAt_gridSet _ _ _ _ hlen1 hbdest1]
          by_cases h2 : loc2 = rec.2
          · rw [if_pos h2, if_pos h2]
          · rw [if_neg h2, if_neg h2, gridAt_gridSet _ _ _ _ hlen hbnd]
        refine ⟨⟨?_, ?_⟩, ?_, ?_, ?_⟩
        · rw [gridSet_data_length, gridSet_data_length,
            gridSet_sizeX, gridSet_sizeX, gridSet_sizeY, gridSet_sizeY]
          exact hlen
        · intro j hj ind2 hind2 halive2
          rw [List.length_set] at hj
          rw [gridSet_sizeX, gridSet_sizeX, gridSet_sizeY, gridSet_sizeY]
          by_cases hji : j = rec.1
          · subst hji
            rw [List.getD_eq_getElem?_getD, List.getElem?_set_self hidxlen] at hind2
            simp only [Option.getD_some] at hind2
            have hi2 := Option.some.inj hind2
            rw [← hi2]
            refine ⟨hbdest, hge1, hlt, ?_⟩
            rw [hat2]
            rw [if_pos rfl]
            omega
          · rw [List.getD_eq_getElem?_getD,
              List.getElem?_set_ne (fun hcon => hji hcon.symm),
              ← List.getD_eq_getElem?_getD] at hind2
            obtain ⟨hbnd2, hge2, hlt2, hcell2⟩ := hwf j hj ind2 hind2 halive2
            have hne_dest : ind2.loc ≠ rec.2 := by
              intro hcon
              rw [hcon, hdest0] at hcell2
              omega
            have hne_src : ind2.loc ≠ ind.loc := by
              intro hcon
              rw [hcon, hcell] at hcell2
              exact hji hcell2.symm
            refine ⟨hbnd2, hge2, hlt2, ?_⟩
            rw [hat2, if_neg hne_dest, if_neg hne_src]
            exact hcell2
        · rw [gridSet_sizeX, gridSet_sizeX]
        · rw [gridSet_sizeY, gridSet_sizeY]
        · intro loc hbar
          have hne_dest : loc ≠ rec.2 := by
            intro hcon
            rw [hcon, hdest0] at hbar
            simp only [BARRIER] at hbar
            omega
          have hne_src : loc ≠ ind.loc := by
            intro hcon
            rw [hcon, hcell] at hbar
            simp only [BARRIER] at hbar
            omega
          rw [hat2, if_neg hne_dest, if_neg hne_src]
          exact hbar
      · have hEq : drainMoveStep st rec = st := by
          simp [drainMoveStep, hind, halive, hguard]
        rw [hEq]
        exact ⟨⟨hlen, hwf⟩, rfl, rfl, fun _ hb => hb⟩
    · have hEq : drainMoveStep st rec = st := by
        simp [drainMoveStep, hind, halive]
      rw [hEq]
      exact ⟨⟨hlen, hwf⟩, rfl, rfl, fun _ hb => hb⟩

theorem drainMove_fold_invariant (queue : List (Nat × (Int × Int)))
    (st : Peeps × Grid) (h : WFWorld st.2 st.1) :
    WFWorld (queue.foldl drainMoveStep st).2 (queue.foldl drainMoveStep st).1 ∧
    (queue.foldl drainMoveStep st).2.sizeX = st.2.sizeX ∧
    (queue.foldl drainMoveStep st).2.sizeY = st.2.sizeY ∧
    (∀ loc, gridAt st.2 loc = BARRIER →
      gridAt (queue.foldl drainMoveStep st).2 loc = BARRIER) := by
  induction queue generalizing st with
  | nil => exact ⟨h, rfl, rfl, fun _ hb => hb⟩
  | cons rec rest ih =>
    obtain ⟨h1, hx, hy, hbar⟩ := drainMoveStep_invariant st rec h
    obtain ⟨h2, hx2, hy2, hbar2⟩ := ih (drainMoveStep st rec) h1
    rw [List.foldl_cons]
    exact ⟨h2, hx2.trans hx, hy2.trans hy, fun loc hb => hbar2 loc (hbar loc hb)⟩

/-- config.ts DEFAULT_PARAMS.  The decimal mutation rates are written as
their exact decimal values; the IEEE-754 doubles the source denotes differ
from these by less than 1e-18, and no theorem below depends on that
difference. -/
def DEFAULT_PARAMS : SimParams :=
  { population := 1000
    stepsPerGeneration := 300
    maxGenerations := 500
    sizeX := 128
    sizeY := 128
    genomeInitialLengthMin := 24
    genomeInitialLengthMax := 24
    genomeMaxLength := 300
    maxNumberNeurons := 5
    pointMutationRate := 1/1000
    geneInsertionDeletionRate := 1/2000
    deletionFraction := 1/2
    sexualReproduction := true
    chooseParentsByFitness := true
    survivalCriteria := [2, 1]
    barrierType := 3
    responsivenessCurveKFactor := 2
    signalLayers := 1
    signalSensorRadius := 2
    longProbeDistance := 16
    shortProbeBarrierDistance := 4
    displayScale := 1
    updateGraphLog := false
    updateGraphLogStride := 25
    displaySampleGenomes := 0
    killEnable := false
    rngSeed := 12345678
    populationSensorRadius := 2 }

/-- Claim C5: the end-of-step processing drains the death queue first and
the move queue second (the composition below); a queued move whose agent is
dead at drain time, or whose destination cell is not empty at drain time,
is dropped without touching the world; after both drains no two living
individuals occupy the same grid cell; and a move into a cell vacated by a
death queued in the same step succeeds, shown on a 2-by-1 world where agent
2 dies vacating cell (1,0) and agent 1 then moves into that very cell. -/
theorem drain_queue_semantics :
    (∀ (st : Peeps × Grid) (rec : Nat × (Int × Int)) (ind : Indiv),
      peepsGet st.1 rec.1 = some ind → ind.alive = false →
      drainMoveStep st rec = st) ∧
    (∀ (st : Peeps × Grid) (rec : Nat × (Int × Int)),
      ¬ (inBoundsXY st.2.sizeX st.2.sizeY rec.2 &&
          gridIsEmptyAt st.2 rec.2) = true →
      drainMoveStep st rec = st) ∧
    (∀ (g : Grid) (p : Peeps), WFWorld g p →
      ∀ i j : Nat, ∀ indi indj : Indiv,
        peepsGet (drainMoveQueue (drainDeathQueue p g).1
          (drainDeathQueue p g).2.1).1 i = some indi →
        peepsGet (drainMoveQueue (drainDeathQueue p g).1
          (drainDeathQueue p g).2.1).1 j = some indj →
        indi.alive = true → indj.alive = true → i ≠ j →
        indi.loc ≠ indj.loc) ∧
    ((peepsGet (drainMoveQueue
        (drainDeathQueue
          ⟨[none, some (createIndiv 1 [] (0, 0) DEFAULT_PARAMS),
            some (createIndiv 2 [] (1, 0) DEFAULT_PARAMS)], [2], [(1, (1, 0))]⟩
          ⟨2, 1, [1, 2]⟩).1
        (drainDeathQueue
          ⟨[none, some (createIndiv 1 [] (0, 0) DEFAULT_PARAMS),
            some (createIndiv 2 [] (1, 0) DEFAULT_PARAMS)], [2], [(1, (1, 0))]⟩
          ⟨2, 1, [1, 2]⟩).2.1).1 1).map (fun ind => (ind.loc, ind.alive)) =
        some ((1, 0), true) ∧
      (peepsGet (drainMoveQueue
        (drainDeathQueue
          ⟨[none, some (createIndiv 1 [] (0, 0) DEFAULT_PARAMS),
            some (createIndiv 2 [] (1, 0) DEFAULT_PARAMS)], [2], [(1, (1, 0))]⟩
          ⟨2, 1, [1, 2]⟩).1
        (drainDeathQueue
          ⟨[none, some (createIndiv 1 [] (0, 0) DEFAULT_PARAMS),
            some (createIndiv 2 [] (1, 0) DEFAULT_PARAMS)], [2], [(1, (1, 0))]⟩
          ⟨2, 1, [1, 2]⟩).2.1).1 2).map Indiv.alive = some false ∧
      (drainMoveQueue
        (drainDeathQueue
          ⟨[none, some (createIndiv 1 [] (0, 0) DEFAULT_PARAMS),
            some (createIndiv 2 [] (1, 0) DEFAULT_PARAMS)], [2], [(1, (1, 0))]⟩
          ⟨2, 1, [1, 2]⟩).1
        (drainDeathQueue
          ⟨[none, some (createIndiv 1 [] (0, 0) DEFAULT_PARAMS),
            some (createIndiv 2 [] (1, 0) DEFAULT_PARAMS)], [2], [(1, (1, 0))]⟩
          ⟨2, 1, [1, 2]⟩).2.1).2.data = [0, 1]) := by
  refine ⟨?_, ?_, ?_, by decide, by decide, by decide⟩
  · intro st rec ind hind hdead
    simp [drainMoveStep, hind, hdead]
  · intro st rec hguard
    cases hind : peepsGet st.1 rec.1 with
    | none => simp [drainMoveStep, hind]
    | some ind =>
      by_cases halive : ind.alive = true
      · simp [drainMoveStep, hind, halive, hguard]
      · simp [drainMoveStep, hind, halive]
  · intro g p hwf i j indi indj hi hj hai haj hij
    have hD := drainDeath_fold_invariant p.deathQueue (p, g, 0) hwf
    have hwfD : WFWorld (drainDeathQueue p g).2.1 (drainDeathQueue p g).1 :=
      hD.1
    have hM := drainMove_fold_invariant (drainDeathQueue p g).1.moveQueue
      ((drainDeathQueue p g).1, (drainDeathQueue p g).2.1) hwfD
    have hwfM : WFWorld
        (drainMoveQueue (drainDeathQueue p g).1 (drainDeathQueue p g).2.1).2
        (drainMoveQueue (drainDeathQueue p g).1 (drainDeathQueue p g).2.1).1 :=
      hM.1
    obtain ⟨hlen2, hwf2⟩ := hwfM
    have hilen := peepsGet_lt_length _ _ _ hi
    have hjlen := peepsGet_lt_length _ _ _ hj
    obtain ⟨_, _, _, hcelli⟩ := hwf2 i hilen indi hi hai
    obtain ⟨_, _, _, hcellj⟩ := hwf2 j hjlen indj hj haj
    intro hloceq
    rw [hloceq, hcellj] at hcelli
    exact hij hcelli.symm

/-- Concrete instantiation of the pairwise-distinct-cells conjunct on a
2-by-1 world with two living agents and empty queues. -/
theorem drain_queue_semantics_witness :
    (createIndiv 1 [] (0, 0) DEFAULT_PARAMS).loc ≠
      (createIndiv 2 [] (1, 0) DEFAULT_PARAMS).loc :=
  drain_queue_semantics.2.2.1
    ⟨2, 1, [1, 2]⟩
    ⟨[none, some (createIndiv 1 [] (0, 0) DEFAULT_PARAMS),
      some (createIndiv 2 [] (1, 0) DEFAULT_PARAMS)], [], []⟩
    (by decide) 1 2 _ _ rfl rfl (by decide) (by decide) (by decide)

/- ── Abstract float semantics ──────────────────────────────────────── -/

/-- The transcendental operations of the JS Math object, plus the
Float32Array store rounding, as abstract functions on the rationals.  Every
theorem that quantifies over a FloatSem holds in particular for the
IEEE-754 implementations; pi stands for the double Math.PI. -/
structure FloatSem where
  tanh : ℚ → ℚ
  sin : ℚ → ℚ
  exp : ℚ → ℚ
  sqrt : ℚ → ℚ
  fround : ℚ → ℚ
  pi : ℚ

/-- Math.round: floor(x + 1/2), which matches the JS tie-breaking. -/
def jsRound (q : ℚ) : Int := Int.floor (q + 1/2)

/- ── Genome similarity (genome.ts) ─────────────────────────────────── -/

/-- genome.ts genomeSimilarity: Jaccard similarity of the two sets of
packed 32-bit gene values. -/
def genomeSimilarity (g1 g2 : List Gene) : ℚ :=
  if g1.length = 0 ∧ g2.length = 0 then 1
  else if g1.length = 0 ∨ g2.length = 0 then 0
  else
    let set1 := (g1.map geneToUint32).dedup
    let set2 := (g2.map geneToUint32).dedup
    let intersection := (set1.filter fun v => decide (v ∈ set2)).length
    let union := set1.length + set2.length - intersection
    if union = 0 then 1 else (intersection : ℚ) / union

/-- genome.ts geneticDiversity sampling loop. -/
def geneticDiversityGo (genomes : List (List Gene)) :
    Nat → PRNGState → ℚ × PRNGState
  | 0, st => (0, st)
  | s + 1, st =>
    let i := nextInt st genomes.length
    let j0 := nextInt i.2 (genomes.length - 1)
    let j := if j0.1 ≥ i.1 then j0.1 + 1 else j0.1
    let t := 1 - genomeSimilarity (genomes.getD i.1 []) (genomes.getD j [])
    let rest := geneticDiversityGo genomes s j0.2
    (t + rest.1, rest.2)

/-- genome.ts geneticDiversity. -/
def geneticDiversity (genomes : List (List Gene)) (st : PRNGState)
    (sampleSize : Nat) : ℚ × PRNGState :=
  if genomes.length < 2 then (0, st)
  else
    let samples := min sampleSize (genomes.length * (genomes.length - 1) / 2)
    let r := geneticDiversityGo genomes samples st
    (r.1 / samples, r.2)

/- ── Sensors (sensors.ts) ──────────────────────────────────────────── -/

/-- The in-bounds cells of the circular neighborhood visited by
grid.visitNeighborhood, in loop order (dx outer, dy inner). -/
def neighborhoodCells (sizeX sizeY : Nat) (center : Int × Int) (radius : ℚ) :
    List (Int × Int) :=
  let iR := Int.floor radius
  ((intRange (-iR) iR).flatMap fun dx =>
    (intRange (-iR) iR).filterMap fun dy =>
      if ((dx * dx + dy * dy : Int) : ℚ) ≤ radius * radius then
        some (center.1 + dx, center.2 + dy)
      else none).filter fun loc => inBoundsXY sizeX sizeY loc

/-- The shared probe of LONGPROBE_BARRIER_FWD and BARRIER_FWD: walk fuel
steps along fwd and report the 1-based step at which an out-of-bounds or
barrier cell is first hit, if any. -/
def probeFirstHit (g : Grid) (fwd : Int × Int) : Nat → (Int × Int) → Option Nat
  | 0, _ => none
  | rem + 1, loc =>
    let loc2 := (loc.1 + fwd.1, loc.2 + fwd.2)
    if !(inBoundsXY g.sizeX g.sizeY loc2) || gridIsBarrierAt g loc2 then some 1
    else (probeFirstHit g fwd rem loc2).map (· + 1)

/-- LONGPROBE_POP_FWD probe: count occupied cells along fwd, stopping at a
boundary or barrier. -/
def longprobePopCount (g : Grid) (fwd : Int × Int) : Nat → (Int × Int) → Nat
  | 0, _ => 0
  | rem + 1, loc =>
    let loc2 := (loc.1 + fwd.1, loc.2 + fwd.2)
    if !(inBoundsXY g.sizeX g.sizeY loc2) then 0
    else if gridIsBarrierAt g loc2 then 0
    else (if gridIsOccupiedAt g loc2 then 1 else 0) +
      longprobePopCount g fwd rem loc2

/-- POPULATION_FWD probe: count occupied cells at base + fwd*d for
d = 1..dist, stopping at the boundary (barriers do not stop it). -/
def populationFwdCount (g : Grid) (base fwd : Int × Int) :
    Nat → Nat → Nat
  | 0, _ => 0
  | rem + 1, d =>
    let loc := (base.1 + fwd.1 * d, base.2 + fwd.2 * d)
    if !(inBoundsXY g.sizeX g.sizeY loc) then 0
    else (if gridIsOccupiedAt g loc then 1 else 0) +
      populationFwdCount g base fwd rem (d + 1)

/-- POPULATION_LR ray: occupied count at base + dir*d for d = 1..dist, with
a per-cell bounds check and no early exit. -/
def rayOccupiedCount (g : Grid) (base dir : Int × Int) (dist : Nat) : Nat :=
  (List.range dist).countP fun k =>
    let d := (k : Int) + 1
    let loc := (base.1 + dir.1 * d, base.2 + dir.2 * d)
    inBoundsXY g.sizeX g.sizeY loc && gridIsOccupiedAt g loc

/-- BARRIER_LR ray: is any cell at base + dir*d, d = 1..dist, a barrier. -/
def rayHasBarrier (g : Grid) (base dir : Int × Int) (dist : Nat) : Bool :=
  (List.range dist).any fun k =>
    let d := (k : Int) + 1
    let loc := (base.1 + dir.1 * d, base.2 + dir.2 * d)
    inBoundsXY g.sizeX g.sizeY loc && gridIsBarrierAt g loc

/-- sensors.ts getSensor.  Sensor ids follow the types.ts enum order.  The
result is the exact rational value; the RANDOM sensor threads the
generator. -/
def getSensor (sem : FloatSem) (ind : Indiv) (sensor : Nat) (g : Grid)
    (sig : Signals) (p : Peeps) (params : SimParams) (st : PRNGState)
    (simStep : Nat) : ℚ × PRNGState :=
  if sensor = 0 then (((ind.loc.1 : ℚ)) / ((params.sizeX : ℚ) - 1), st)
  else if sensor = 1 then (((ind.loc.2 : ℚ)) / ((params.sizeY : ℚ) - 1), st)
  else if sensor = 2 then
    let distX := min ind.loc.1 ((params.sizeX : Int) - 1 - ind.loc.1)
    ((distX : ℚ) / ((params.sizeX : ℚ) / 2), st)
  else if sensor = 3 then
    let distY := min ind.loc.2 ((params.sizeY : Int) - 1 - ind.loc.2)
    ((distY : ℚ) / ((params.sizeY : ℚ) / 2), st)
  else if sensor = 4 then
    let distX := min ind.loc.1 ((params.sizeX : Int) - 1 - ind.loc.1)
    let distY := min ind.loc.2 ((params.sizeY : Int) - 1 - ind.loc.2)
    let closest := min distX distY
    ((closest : ℚ) / ((min params.sizeX params.sizeY : ℚ) / 2), st)
  else if sensor = 5 then
    let fwd := dirAsCoord ind.lastMoveDir
    let aheadLoc := (ind.loc.1 + fwd.1, ind.loc.2 + fwd.2)
    if inBoundsXY g.sizeX g.sizeY aheadLoc && gridIsOccupiedAt g aheadLoc then
      match peepsGet p (gridAt g aheadLoc) with
      | some other =>
        if other.alive then (genomeSimilarity ind.genome other.genome, st)
        else (0, st)
      | none => (0, st)
    else (0, st)
  else if sensor = 6 then ((((dirAsCoord ind.lastMoveDir).1 : ℚ) + 1) / 2, st)
  else if sensor = 7 then ((((dirAsCoord ind.lastMoveDir).2 : ℚ) + 1) / 2, st)
  else if sensor = 8 then
    let fwd := dirAsCoord ind.lastMoveDir
    if fwd.1 = 0 ∧ fwd.2 = 0 then (0, st)
    else
      let count := longprobePopCount g fwd ind.longProbeDist ind.loc
      (min 1 ((count : ℚ) / ind.longProbeDist), st)
  else if sensor = 9 then
    let fwd := dirAsCoord ind.lastMoveDir
    if fwd.1 = 0 ∧ fwd.2 = 0 then (0, st)
    else
      match probeFirstHit g fwd ind.longProbeDist ind.loc with
      | some d => ((d : ℚ) / ind.longProbeDist, st)
      | none => (1, st)
  else if sensor = 10 then
    let cells := neighborhoodCells g.sizeX g.sizeY ind.loc
      params.populationSensorRadius
    let total := cells.length
    let count := (cells.filter fun loc => gridIsOccupiedAt g loc).length
    (if 0 < total then (count : ℚ) / total else 0, st)
  else if sensor = 11 then
    let fwd := dirAsCoord ind.lastMoveDir
    if fwd.1 = 0 ∧ fwd.2 = 0 then (0, st)
    else
      let count := populationFwdCount g ind.loc fwd
        params.shortProbeBarrierDistance 1
      (min 1 ((count : ℚ) / params.shortProbeBarrierDistance), st)
  else if sensor = 12 then
    let right := dirAsCoord (dirRotate90CW ind.lastMoveDir)
    let left := dirAsCoord (dirRotate90CCW ind.lastMoveDir)
    let rightCount := rayOccupiedCount g ind.loc right
      params.shortProbeBarrierDistance
    let leftCount := rayOccupiedCount g ind.loc left
      params.shortProbeBarrierDistance
    let total := rightCount + leftCount
    (if 0 < total then (rightCount : ℚ) / total else 1/2, st)
  else if sensor = 13 then
    let phase := ((simStep % ind.oscPeriod : Nat) : ℚ) / ind.oscPeriod
    ((sem.sin (phase * 2 * sem.pi) + 1) / 2, st)
  else if sensor = 14 then ((ind.age : ℚ) / params.stepsPerGeneration, st)
  else if sensor = 15 then
    let fwd := dirAsCoord ind.lastMoveDir
    if fwd.1 = 0 ∧ fwd.2 = 0 then (1, st)
    else
      match probeFirstHit g fwd params.shortProbeBarrierDistance ind.loc with
      | some d => (1 - ((d : ℚ) / (params.shortProbeBarrierDistance + 1)), st)
      | none => (0, st)
  else if sensor = 16 then
    let right := dirAsCoord (dirRotate90CW ind.lastMoveDir)
    let left := dirAsCoord (dirRotate90CCW ind.lastMoveDir)
    let rightBarrier := rayHasBarrier g ind.loc right
      params.shortProbeBarrierDistance
    let leftBarrier := rayHasBarrier g ind.loc left
      params.shortProbeBarrierDistance
    (if rightBarrier && !leftBarrier then 0
     else if !rightBarrier && leftBarrier then 1
     else 1/2, st)
  else if sensor = 17 then next01 st
  else if sensor = 18 then
    (getSignalDensity sig 0 ind.loc params.signalSensorRadius, st)
  else if sensor = 19 then
    let fwd := dirAsCoord ind.lastMoveDir
    if fwd.1 = 0 ∧ fwd.2 = 0 then (0, st)
    else
      let aheadLoc := (ind.loc.1 + fwd.1, ind.loc.2 + fwd.2)
      if inBoundsXY g.sizeX g.sizeY aheadLoc then
        (getSignalDensity sig 0 aheadLoc params.signalSensorRadius, st)
      else (0, st)
  else if sensor = 20 then
    let right := dirAsCoord (dirRotate90CW ind.lastMoveDir)
    let left := dirAsCoord (dirRotate90CCW ind.lastMoveDir)
    let rLoc := (ind.loc.1 + right.1, ind.loc.2 + right.2)
    let lLoc := (ind.loc.1 + left.1, ind.loc.2 + left.2)
    let rSig := if inBoundsXY g.sizeX g.sizeY rLoc then
        getSignalDensity sig 0 rLoc params.signalSensorRadius
      else 0
    let lSig := if inBoundsXY g.sizeX g.sizeY lLoc then
        getSignalDensity sig 0 lLoc params.signalSensorRadius
      else 0
    let total := rSig + lSig
    (if 0 < total then rSig / total else 1/2, st)
  else (0, st)

/-- indiv.ts getSensorValues: all 21 sensors in order, stored through the
Float32Array rounding. -/
def getSensorValues (sem : FloatSem) (ind : Indiv) (g : Grid) (sig : Signals)
    (p : Peeps) (params : SimParams) (st : PRNGState) (simStep : Nat) :
    List ℚ × PRNGState :=
  (List.range NUM_SENSES).foldl
    (fun acc s =>
      let r := getSensor sem ind s g sig p params acc.2 simStep
      (acc.1 ++ [sem.fround r.1], r.2))
    ([], st)

/- ── Feed-forward (neural-net.ts feedForward) ──────────────────────── -/

/-- neural-net.ts feedForward.  Connections propagate in list order into
Float32Array accumulators (every store rounds through fround); driven
neurons then update their persistent outputs through tanh, and each action
accumulator goes through tanh.  Phase 1 reads neuron outputs from the
pre-step net, which the source also does because outputs are only written
in phase 2. -/
def feedForward (sem : FloatSem) (nnet : NeuralNet) (sensorValues : List ℚ) :
    List ℚ × NeuralNet :=
  let phase1 := nnet.connections.foldl
    (fun (acc : List ℚ × List ℚ) conn =>
      let sourceOutput :=
        if conn.sourceType = SENSOR then sensorValues.getD conn.sourceId 0
        else (nnet.neurons.getD conn.sourceId ⟨1/2, false⟩).output
      let inputVal := sourceOutput * conn.weight
      if conn.sinkType = ACTION then
        (acc.1.set conn.sinkId (sem.fround (acc.1.getD conn.sinkId 0 + inputVal)),
         acc.2)
      else
        (acc.1,
         acc.2.set conn.sinkId (sem.fround (acc.2.getD conn.sinkId 0 + inputVal))))
    (List.replicate NUM_ACTIONS 0, List.replicate nnet.neurons.length 0)
  let neurons2 := nnet.neurons.enum.map fun ni =>
    if ni.2.driven then { ni.2 with output := sem.tanh (phase1.2.getD ni.1 0) }
    else ni.2
  let actionLevels := phase1.1.map fun v => sem.fround (sem.tanh v)
  (actionLevels, { nnet with neurons := neurons2 })

/-- indiv.ts responsivenessCurve. -/
def responsivenessCurve (sem : FloatSem) (raw kFactor : ℚ) : ℚ :=
  1 / (1 + sem.exp (-kFactor * (raw - 1/2) * 8))

/- ── Actions (actions.ts, src/unnamed/part_003) ────────────────────── -/

/-- Accumulator of the action loop: pending movement, the acting
individual, and the mutable world pieces actions touch (queues, signals,
generator).  The grid is read-only in executeActions. -/
structure ActionAcc where
  moveX : ℚ
  moveY : ℚ
  ind : Indiv
  peeps : Peeps
  signals : Signals
  rng : PRNGState

/-- One case of the actions.ts switch, numbered by the Action enum.  The
source reads the action level into a local; it is inlined here (the reads
are pure), as are the other block locals, so that each case is a plain
conditional. -/
def executeOneAction (_sem : FloatSem) (params : SimParams) (g : Grid)
    (threshold : ℚ) (actionLevels : List ℚ) (acc : ActionAcc) (a : Nat) :
    ActionAcc :=
  if a = 0 then { acc with moveX := acc.moveX + actionLevels.getD a 0 }
  else if a = 1 then { acc with moveY := acc.moveY + actionLevels.getD a 0 }
  else if a = 2 then
    if |actionLevels.getD a 0| > threshold * (1/2) then
      { acc with
        moveX := acc.moveX +
          ((dirAsCoord acc.ind.lastMoveDir).1 : ℚ) * actionLevels.getD a 0,
        moveY := acc.moveY +
          ((dirAsCoord acc.ind.lastMoveDir).2 : ℚ) * actionLevels.getD a 0 }
    else acc
  else if a = 3 then
    if |actionLevels.getD a 0| > threshold * (1/2) then
      { acc with
        moveX := acc.moveX +
          ((dirAsCoord (if actionLevels.getD a 0 > 0 then
            dirRotate90CW acc.ind.lastMoveDir
          else dirRotate90CCW acc.ind.lastMoveDir)).1 : ℚ),
        moveY := acc.moveY +
          ((dirAsCoord (if actionLevels.getD a 0 > 0 then
            dirRotate90CW acc.ind.lastMoveDir
          else dirRotate90CCW acc.ind.lastMoveDir)).2 : ℚ) }
    else acc
  else if a = 4 then
    if |actionLevels.getD a 0| > threshold * (1/2) then
      { acc with
        moveX := acc.moveX + ((dirAsCoord (dirRandom acc.rng).1).1 : ℚ),
        moveY := acc.moveY + ((dirAsCoord (dirRandom acc.rng).1).2 : ℚ),
        rng := (dirRandom acc.rng).2 }
    else acc
  else if a = 5 then
    { acc with ind := { acc.ind with
        oscPeriod := max 2 (1 + Int.floor
          (|actionLevels.getD a 0| * 100)).toNat } }
  else if a = 6 then
    { acc with ind := { acc.ind with
        longProbeDist := max 1 (1 + Int.floor
          (|actionLevels.getD a 0| * params.longProbeDistance)).toNat } }
  else if a = 7 then
    { acc with ind := { acc.ind with
        responsiveness := (actionLevels.getD a 0 + 1) / 2 } }
  else if a = 8 then
    if |actionLevels.getD a 0| > threshold * (1/2) then
      { acc with signals := sigEmit acc.signals 0 acc.ind.loc }
    else acc
  else if a = 9 then
    if params.killEnable &&
        decide (|actionLevels.getD a 0| > threshold * (1/2)) then
      if inBoundsXY g.sizeX g.sizeY
          (acc.ind.loc.1 + (dirAsCoord acc.ind.lastMoveDir).1,
           acc.ind.loc.2 + (dirAsCoord acc.ind.lastMoveDir).2) &&
          gridIsOccupiedAt g
          (acc.ind.loc.1 + (dirAsCoord acc.ind.lastMoveDir).1,
           acc.ind.loc.2 + (dirAsCoord acc.ind.lastMoveDir).2) then
        match peepsGet acc.peeps (gridAt g
          (acc.ind.loc.1 + (dirAsCoord acc.ind.lastMoveDir).1,
           acc.ind.loc.2 + (dirAsCoord acc.ind.lastMoveDir).2)) with
        | some target =>
          if target.alive then
            { acc with peeps := queueDeath acc.peeps (gridAt g
                (acc.ind.loc.1 + (dirAsCoord acc.ind.lastMoveDir).1,
                 acc.ind.loc.2 + (dirAsCoord acc.ind.lastMoveDir).2)) }
          else acc
        | none => acc
      else acc
    else acc
  else if a = 10 then
    if |actionLevels.getD a 0| > threshold * (1/2) then
      { acc with moveX := acc.moveX + 1 }
    else acc
  else if a = 11 then
    if |actionLevels.getD a 0| > threshold * (1/2) then
      { acc with moveX := acc.moveX - 1 }
    else acc
  else if a = 12 then
    if |actionLevels.getD a 0| > threshold * (1/2) then
      { acc with moveY := acc.moveY - 1 }
    else acc
  else if a = 13 then
    if |actionLevels.getD a 0| > threshold * (1/2) then
      { acc with moveY := acc.moveY + 1 }
    else acc
  else if a = 14 then
    if |actionLevels.getD a 0| > threshold * (1/2) then
      { acc with
        moveX := acc.moveX +
          ((dirAsCoord (dirRotate90CCW acc.ind.lastMoveDir)).1 : ℚ),
        moveY := acc.moveY +
          ((dirAsCoord (dirRotate90CCW acc.ind.lastMoveDir)).2 : ℚ) }
    else acc
  else if a = 15 then
    if |actionLevels.getD a 0| > threshold * (1/2) then
      { acc with
        moveX := acc.moveX +
          ((dirAsCoord (dirRotate90CW acc.ind.lastMoveDir)).1 : ℚ),
        moveY := acc.moveY +
          ((dirAsCoord (dirRotate90CW acc.ind.lastMoveDir)).2 : ℚ) }
    else acc
  else if a = 16 then
    if |actionLevels.getD a 0| > threshold * (1/2) then
      { acc with
        moveX := acc.moveX +
          ((dirAsCoord (dirRotate180 acc.ind.lastMoveDir)).1 : ℚ),
        moveY := acc.moveY +
          ((dirAsCoord (dirRotate180 acc.ind.lastMoveDir)).2 : ℚ) }
    else acc
  else acc

/-- actions.ts executeActions: run the 17 action cases in enum order with
the firing threshold fixed from the pre-step responsiveness, then quantize
the accumulated movement and queue a move if the target cell is in bounds
and empty, updating lastMoveDir immediately. -/
def executeActions (sem : FloatSem) (ind : Indiv) (actionLevels : List ℚ)
    (g : Grid) (p : Peeps) (sig : Signals) (params : SimParams)
    (st : PRNGState) : Indiv × Peeps × Signals × PRNGState :=
  let threshold := responsivenessCurve sem ind.responsiveness
    params.responsivenessCurveKFactor
  let acc := (List.range NUM_ACTIONS).foldl
    (executeOneAction sem params g threshold actionLevels)
    ⟨0, 0, ind, p, sig, st⟩
  let dx : Int := if acc.moveX > 1/2 then 1 else if acc.moveX < -(1/2) then -1 else 0
  let dy : Int := if acc.moveY > 1/2 then 1 else if acc.moveY < -(1/2) then -1 else 0
  if dx ≠ 0 ∨ dy ≠ 0 then
    let newLoc := (acc.ind.loc.1 + dx, acc.ind.loc.2 + dy)
    if inBoundsXY g.sizeX g.sizeY newLoc && gridIsEmptyAt g newLoc then
      ({ acc.ind with lastMoveDir := coordToCompass dx dy },
       queueMove acc.peeps acc.ind.index newLoc, acc.signals, acc.rng)
    else (acc.ind, acc.peeps, acc.signals, acc.rng)
  else (acc.ind, acc.peeps, acc.signals, acc.rng)

/- ── Step loop (indiv.ts simStepIndiv, simulator.ts stepOnce) ──────── -/

/-- indiv.ts simStepIndiv: sensors then feed-forward; the individual keeps
its updated persistent neuron outputs. -/
def simStepIndiv (sem : FloatSem) (ind : Indiv) (g : Grid) (sig : Signals)
    (p : Peeps) (params : SimParams) (st : PRNGState) (simStep : Nat) :
    List ℚ × Indiv × PRNGState :=
  let sv := getSensorValues sem ind g sig p params st simStep
  let ff := feedForward sem ind.nnet sv.1
  (ff.1, { ind with nnet := ff.2 }, sv.2)

structure AgentPhaseAcc where
  peeps : Peeps
  signals : Signals
  rng : PRNGState

/-- The body of the per-individual loop of simulator.ts stepOnce: skip
missing or dead agents; otherwise run sensors and the net, execute actions
(which may queue moves and deaths and emit signals), and age the agent.
The grid is only read during this phase; all grid writes are queued. -/
def agentPhaseStep (sem : FloatSem) (params : SimParams) (g : Grid)
    (simStep : Nat) (acc : AgentPhaseAcc) (i : Nat) : AgentPhaseAcc :=
  match peepsGet acc.peeps i with
  | some ind =>
    if ind.alive then
      let ssi := simStepIndiv sem ind g acc.signals acc.peeps params acc.rng
        simStep
      let ind1 := ssi.2.1
      let p1 := { acc.peeps with
        individuals := acc.peeps.individuals.set i (some ind1) }
      let ea := executeActions sem ind1 ssi.1 g p1 acc.signals params ssi.2.2
      let ind2 := { ea.1 with age := ea.1.age + 1 }
      ⟨{ ea.2.1 with individuals := ea.2.1.individuals.set i (some ind2) },
       ea.2.2.1, ea.2.2.2⟩
    else acc
  | none => acc

/-- analysis.ts GenerationStats. -/
structure GenerationStats where
  generation : Nat
  population : Nat
  survivors : Nat
  survivalRate : ℚ
  geneticDiversity : ℚ
  avgGenomeLength : ℚ
  killDeaths : Nat
  maxGenomeLength : Nat
  minGenomeLength : Nat
deriving Repr, DecidableEq

/-- The state a simulator.ts Simulator instance owns. -/
structure SimState where
  params : SimParams
  grid : Grid
  peeps : Peeps
  signals : Signals
  rng : PRNGState
  generation : Nat
  simStep : Nat
  running : Bool
  paused : Bool
  killDeaths : Nat
  stats : Option GenerationStats
  generationHistory : List GenerationStats
  colorCache : List (Nat × Nat × Nat × Nat)
deriving Repr, DecidableEq

/-- peeps.ts getPopulationSize. -/
def getPopulationSize (p : Peeps) : Nat := p.individuals.length - 1

/-- simulator.ts stepOnce: per-agent phase in ascending index order, then
drain deaths, then drain moves, then fade every signal layer, then advance
the step counter. -/
def stepOnce (sem : FloatSem) (s : SimState) : SimState :=
  let phase := (List.range (getPopulationSize s.peeps)).foldl
    (fun acc k => agentPhaseStep sem s.params s.grid s.simStep acc (k + 1))
    ⟨s.peeps, s.signals, s.rng⟩
  let dd := drainDeathQueue phase.peeps s.grid
  let dm := drainMoveQueue dd.1 dd.2.1
  let sig2 := (List.range s.params.signalLayers).foldl
    (fun sg l => sigFade sg l) phase.signals
  { s with peeps := dm.1, grid := dm.2, signals := sig2, rng := phase.rng,
           killDeaths := s.killDeaths + dd.2.2, simStep := s.simStep + 1 }


/- ── The agent phase never writes the grid ─────────────────────────── -/

theorem executeOneAction_ind_loc (sem : FloatSem) (params : SimParams)
    (g : Grid) (threshold : ℚ) (levels : List ℚ) (acc : ActionAcc) (a : Nat) :
    (executeOneAction sem params g threshold levels acc a).ind.loc =
      acc.ind.loc := by
  unfold executeOneAction
  by_cases h0 : a = 0
  · rw [if_pos h0]
  rw [if_neg h0]
  by_cases h1 : a = 1
  · rw [if_pos h1]
  rw [if_neg h1]
  by_cases h2 : a = 2
  · rw [if_pos h2]
    split <;> rfl
  rw [if_neg h2]
  by_cases h3 : a = 3
  · rw [if_pos h3]
    split <;> rfl
  rw [if_neg h3]
  by_cases h4 : a = 4
  · rw [if_pos h4]
    split <;> rfl
  rw [if_neg h4]
  by_cases h5 : a = 5
  · rw [if_pos h5]
  rw [if_neg h5]
  by_cases h6 : a = 6
  · rw [if_pos h6]
  rw [if_neg h6]
  by_cases h7 : a = 7
  · rw [if_pos h7]
  rw [if_neg h7]
  by_cases h8 : a = 8
  · rw [if_pos h8]
    split <;> rfl
  rw [if_neg h8]
  by_cases h9 : a = 9
  · rw [if_pos h9]
    repeat' split
    all_goals rfl
  rw [if_neg h9]
  by_cases h10 : a = 10
  · rw [if_pos h10]
    split <;> rfl
  rw [if_neg h10]
  by_cases h11 : a = 11
  · rw [if_pos h11]
    split <;> rfl
  rw [if_neg h11]
  by_cases h12 : a = 12
  · rw [if_pos h12]
    split <;> rfl
  rw [if_neg h12]
  by_cases h13 : a = 13
  · rw [if_pos h13]
    split <;> rfl
  rw [if_neg h13]
  by_cases h14 : a = 14
  · rw [if_pos h14]
    split <;> rfl
  rw [if_neg h14]
  by_cases h15 : a = 15
  · rw [if_pos h15]
    split <;> rfl
  rw [if_neg h15]
  by_cases h16 : a = 16
  · rw [if_pos h16]
    split <;> rfl
  rw [if_neg h16]
  try rfl

theorem executeOneAction_ind_alive (sem : FloatSem) (params : SimParams)
    (g : Grid) (threshold : ℚ) (levels : List ℚ) (acc : ActionAcc) (a : Nat) :
    (executeOneAction sem params g threshold levels acc a).ind.alive =
      acc.ind.alive := by
  unfold executeOneAction
  by_cases h0 : a = 0
  · rw [if_pos h0]
  rw [if_neg h0]
  by_cases h1 : a = 1
  · rw [if_pos h1]
  rw [if_neg h1]
  by_cases h2 : a = 2
  · rw [if_pos h2]
    split <;> rfl
  rw [if_neg h2]
  by_cases h3 : a = 3
  · rw [if_pos h3]
    split <;> rfl
  rw [if_neg h3]
  by_cases h4 : a = 4
  · rw [if_pos h4]
    split <;> rfl
  rw [if_neg h4]
  by_cases h5 : a = 5
  · rw [if_pos h5]
  rw [if_neg h5]
  by_cases h6 : a = 6
  · rw [if_pos h6]
  rw [if_neg h6]
  by_cases h7 : a = 7
  · rw [if_pos h7]
  rw [if_neg h7]
  by_cases h8 : a = 8
  · rw [if_pos h8]
    split <;> rfl
  rw [if_neg h8]
  by_cases h9 : a = 9
  · rw [if_pos h9]
    repeat' split
    all_goals rfl
  rw [if_neg h9]
  by_cases h10 : a = 10
  · rw [if_pos h10]
    split <;> rfl
  rw [if_neg h10]
  by_cases h11 : a = 11
  · rw [if_pos h11]
    split <;> rfl
  rw [if_neg h11]
  by_cases h12 : a = 12
  · rw [if_pos h12]
    split <;> rfl
  rw [if_neg h12]
  by_cases h13 : a = 13
  · rw [if_pos h13]
    split <;> rfl
  rw [if_neg h13]
  by_cases h14 : a = 14
  · rw [if_pos h14]
    split <;> rfl
  rw [if_neg h14]
  by_cases h15 : a = 15
  · rw [if_pos h15]
    split <;> rfl
  rw [if_neg h15]
  by_cases h16 : a = 16
  · rw [if_pos h16]
    split <;> rfl
  rw [if_neg h16]
  try rfl

theorem executeOneAction_ind_index (sem : FloatSem) (params : SimParams)
    (g : Grid) (threshold : ℚ) (levels : List ℚ) (acc : ActionAcc) (a : Nat) :
    (executeOneAction sem params g threshold levels acc a).ind.index =
      acc.ind.index := by
  unfold executeOneAction
  by_cases h0 : a = 0
  · rw [if_pos h0]
  rw [if_neg h0]
  by_cases h1 : a = 1
  · rw [if_pos h1]
  rw [if_neg h1]
  by_cases h2 : a = 2
  · rw [if_pos h2]
    split <;> rfl
  rw [if_neg h2]
  by_cases h3 : a = 3
  · rw [if_pos h3]
    split <;> rfl
  rw [if_neg h3]
  by_cases h4 : a = 4
  · rw [if_pos h4]
    split <;> rfl
  rw [if_neg h4]
  by_cases h5 : a = 5
  · rw [if_pos h5]
  rw [if_neg h5]
  by_cases h6 : a = 6
  · rw [if_pos h6]
  rw [if_neg h6]
  by_cases h7 : a = 7
  · rw [if_pos h7]
  rw [if_neg h7]
  by_cases h8 : a = 8
  · rw [if_pos h8]
    split <;> rfl
  rw [if_neg h8]
  by_cases h9 : a = 9
  · rw [if_pos h9]
    repeat' split
    all_goals rfl
  rw [if_neg h9]
  by_cases h10 : a = 10
  · rw [if_pos h10]
    split <;> rfl
  rw [if_neg h10]
  by_cases h11 : a = 11
  · rw [if_pos h11]
    split <;> rfl
  rw [if_neg h11]
  by_cases h12 : a = 12
  · rw [if_pos h12]
    split <;> rfl
  rw [if_neg h12]
  by_cases h13 : a = 13
  · rw [if_pos h13]
    split <;> rfl
  rw [if_neg h13]
  by_cases h14 : a = 14
  · rw [if_pos h14]
    split <;> rfl
  rw [if_neg h14]
  by_cases h15 : a = 15
  · rw [if_pos h15]
    split <;> rfl
  rw [if_neg h15]
  by_cases h16 : a = 16
  · rw [if_pos h16]
    split <;> rfl
  rw [if_neg h16]
  try rfl

theorem executeOneAction_individuals (sem : FloatSem) (params : SimParams)
    (g : Grid) (threshold : ℚ) (levels : List ℚ) (acc : ActionAcc) (a : Nat) :
    (executeOneAction sem params g threshold levels acc a).peeps.individuals =
      acc.peeps.individuals := by
  unfold executeOneAction
  by_cases h0 : a = 0
  · rw [if_pos h0]
  rw [if_neg h0]
  by_cases h1 : a = 1
  · rw [if_pos h1]
  rw [if_neg h1]
  by_cases h2 : a = 2
  · rw [if_pos h2]
    split <;> rfl
  rw [if_neg h2]
  by_cases h3 : a = 3
  · rw [if_pos h3]
    split <;> rfl
  rw [if_neg h3]
  by_cases h4 : a = 4
  · rw [if_pos h4]
    split <;> rfl
  rw [if_neg h4]
  by_cases h5 : a = 5
  · rw [if_pos h5]
  rw [if_neg h5]
  by_cases h6 : a = 6
  · rw [if_pos h6]
  rw [if_neg h6]
  by_cases h7 : a = 7
  · rw [if_pos h7]
  rw [if_neg h7]
  by_cases h8 : a = 8
  · rw [if_pos h8]
    split <;> rfl
  rw [if_neg h8]
  by_cases h9 : a = 9
  · rw [if_pos h9]
    repeat' split
    all_goals rfl
  rw [if_neg h9]
  by_cases h10 : a = 10
  · rw [if_pos h10]
    split <;> rfl
  rw [if_neg h10]
  by_cases h11 : a = 11
  · rw [if_pos h11]
    split <;> rfl
  rw [if_neg h11]
  by_cases h12 : a = 12
  · rw [if_pos h12]
    split <;> rfl
  rw [if_neg h12]
  by_cases h13 : a = 13
  · rw [if_pos h13]
    split <;> rfl
  rw [if_neg h13]
  by_cases h14 : a = 14
  · rw [if_pos h14]
    split <;> rfl
  rw [if_neg h14]
  by_cases h15 : a = 15
  · rw [if_pos h15]
    split <;> rfl
  rw [if_neg h15]
  by_cases h16 : a = 16
  · rw [if_pos h16]
    split <;> rfl
  rw [if_neg h16]
  try rfl

theorem actions_foldl_frame (sem : FloatSem) (params : SimParams) (g : Grid)
    (threshold : ℚ) (levels : List ℚ) (l : List Nat) (acc : ActionAcc) :
    (l.foldl (executeOneAction sem params g threshold levels) acc).ind.loc =
      acc.ind.loc ∧
    (l.foldl (executeOneAction sem params g threshold levels) acc).ind.alive =
      acc.ind.alive ∧
    (l.foldl (executeOneAction sem params g threshold levels) acc).ind.index =
      acc.ind.index ∧
    (l.foldl (executeOneAction sem params g threshold levels)
      acc).peeps.individuals = acc.peeps.individuals := by
  induction l generalizing acc with
  | nil => exact ⟨rfl, rfl, rfl, rfl⟩
  | cons a rest ih =>
    obtain ⟨g1, g2, g3, g4⟩ :=
      ih (executeOneAction sem params g threshold levels acc a)
    rw [List.foldl_cons]
    exact
      ⟨g1.trans (executeOneAction_ind_loc sem params g threshold levels acc a),
       g2.trans (executeOneAction_ind_alive sem params g threshold levels acc a),
       g3.trans (executeOneAction_ind_index sem params g threshold levels acc a),
       g4.trans (executeOneAction_individuals sem params g threshold levels acc a)⟩

theorem executeActions_frame (sem : FloatSem) (ind : Indiv) (levels : List ℚ)
    (g : Grid) (p : Peeps) (sig : Signals) (params : SimParams)
    (st : PRNGState) :
    (executeActions sem ind levels g p sig params st).1.loc = ind.loc ∧
    (executeActions sem ind levels g p sig params st).1.alive = ind.alive ∧
    (executeActions sem ind levels g p sig params st).1.index = ind.index ∧
    (executeActions sem ind levels g p sig params st).2.1.individuals =
      p.individuals := by
  obtain ⟨h1, h2, h3, h4⟩ := actions_foldl_frame sem params g
    (responsivenessCurve sem ind.responsiveness
      params.responsivenessCurveKFactor)
    levels (List.range NUM_ACTIONS) ⟨0, 0, ind, p, sig, st⟩
  unfold executeActions
  dsimp only
  repeat' split
  all_goals exact ⟨h1, h2, h3, h4⟩

/-- WFWorld depends on a population only through its individuals list. -/
theorem WFWorld_congr_individuals (g : Grid) (p q : Peeps)
    (h : WFWorld g p) (he : q.individuals = p.individuals) : WFWorld g q := by
  obtain ⟨hlen, hwf⟩ := h
  refine ⟨hlen, ?_⟩
  rw [he]
  exact hwf

/-- Replacing a stored individual by one with the same location and
liveness preserves the world invariant. -/
theorem WFWorld_set_same (g : Grid) (p : Peeps) (i : Nat) (ind indN : Indiv)
    (h : WFWorld g p) (hind : peepsGet p i = some ind)
    (hloc : indN.loc = ind.loc) (halive : indN.alive = ind.alive)
    (q : Peeps) (hq : q.individuals = p.individuals.set i (some indN)) :
    WFWorld g q := by
  obtain ⟨hlen, hwf⟩ := h
  have hilen : i < p.individuals.length := peepsGet_lt_length _ _ _ hind
  have hind' : p.individuals.getD i none = some ind := hind
  refine ⟨hlen, ?_⟩
  intro j hj ind2 hind2 halive2
  rw [hq, List.length_set] at hj
  rw [hq] at hind2
  by_cases hji : j = i
  · subst hji
    rw [List.getD_eq_getElem?_getD, List.getElem?_set_self hilen] at hind2
    simp only [Option.getD_some] at hind2
    have hi2 := Option.some.inj hind2
    have halive0 : ind.alive = true := by rw [← halive, hi2]; exact halive2
    obtain ⟨hb, hge, hlt, hc⟩ := hwf j hj ind hind' halive0
    rw [← hi2, hloc]
    exact ⟨hb, hge, hlt, hc⟩
  · rw [List.getD_eq_getElem?_getD,
      List.getElem?_set_ne (fun hcon => hji hcon.symm),
      ← List.getD_eq_getElem?_getD] at hind2
    exact hwf j hj ind2 hind2 halive2

/-- One agent-phase iteration preserves the world invariant with respect to
the (untouched) grid: sensing and feed-forward only replace the stored
individual by one at the same location with the same liveness, and action
execution only appends to the queues. -/
theorem agentPhaseStep_WF (sem : FloatSem) (params : SimParams) (g : Grid)
    (simStep : Nat) (acc : AgentPhaseAcc) (i : Nat)
    (h : WFWorld g acc.peeps) :
    WFWorld g (agentPhaseStep sem params g simStep acc i).peeps := by
  unfold agentPhaseStep
  cases hind : peepsGet acc.peeps i with
  | none => exact h
  | some ind =>
    dsimp only
    by_cases halive : ind.alive = true
    · rw [if_pos halive]
      have hilen : i < acc.peeps.individuals.length :=
        peepsGet_lt_length _ _ _ hind
      have hl1 : (simStepIndiv sem ind g acc.signals acc.peeps params acc.rng
          simStep).2.1.loc = ind.loc := rfl
      have ha1 : (simStepIndiv sem ind g acc.signals acc.peeps params acc.rng
          simStep).2.1.alive = ind.alive := rfl
      generalize hssi : simStepIndiv sem ind g acc.signals acc.peeps params
        acc.rng simStep = ssi at hl1 ha1 ⊢
      have hWF1 : WFWorld g { acc.peeps with
          individuals := acc.peeps.individuals.set i (some ssi.2.1) } :=
        WFWorld_set_same g acc.peeps i ind ssi.2.1 h hind hl1 ha1 _ rfl
      obtain ⟨hf1, hf2, hf3, hf4⟩ := executeActions_frame sem ssi.2.1 ssi.1 g
        { acc.peeps with
          individuals := acc.peeps.individuals.set i (some ssi.2.1) }
        acc.signals params ssi.2.2
      generalize hea : executeActions sem ssi.2.1 ssi.1 g
        { acc.peeps with
          individuals := acc.peeps.individuals.set i (some ssi.2.1) }
        acc.signals params ssi.2.2 = ea at hf1 hf2 hf3 hf4 ⊢
      have hWF2 : WFWorld g ea.2.1 :=
        WFWorld_congr_individuals g _ ea.2.1 hWF1 hf4
      have hget : peepsGet ea.2.1 i = some ssi.2.1 := by
        show ea.2.1.individuals.getD i none = some ssi.2.1
        rw [hf4, List.getD_eq_getElem?_getD, List.getElem?_set_self hilen]
        rfl
      exact WFWorld_set_same g ea.2.1 i ssi.2.1
        { ea.1 with age := ea.1.age + 1 } hWF2 hget hf1 hf2 _ rfl
    · rw [if_neg halive]
      exact h

theorem agentPhase_foldl_WF (sem : FloatSem) (params : SimParams) (g : Grid)
    (simStep : Nat) (l : List Nat) (acc : AgentPhaseAcc)
    (h : WFWorld g acc.peeps) :
    WFWorld g ((l.foldl
      (fun a k => agentPhaseStep sem params g simStep a (k + 1)) acc)).peeps := by
  induction l generalizing acc with
  | nil => exact h
  | cons x rest ih =>
    rw [List.foldl_cons]
    exact ih _ (agentPhaseStep_WF sem params g simStep acc (x + 1) h)

/-- End-of-step draining (deaths then moves) preserves barrier cells in a
well-formed world. -/
theorem drains_preserve_barriers (P : Peeps) (g : Grid)
    (h : WFWorld g P) :
    ∀ loc, gridAt g loc = BARRIER →
      gridAt (drainMoveQueue (drainDeathQueue P g).1
        (drainDeathQueue P g).2.1).2 loc = BARRIER := by
  intro loc hbar
  obtain ⟨hd1, _, _, hdbar⟩ := drainDeath_fold_invariant
    P.deathQueue (P, g, 0) h
  have hWFdd : WFWorld (drainDeathQueue P g).2.1 (drainDeathQueue P g).1 :=
    WFWorld_congr_individuals _ _ _ hd1 rfl
  obtain ⟨_, _, _, hmbar⟩ := drainMove_fold_invariant
    (drainDeathQueue P g).1.moveQueue
    ((drainDeathQueue P g).1, (drainDeathQueue P g).2.1) hWFdd
  exact hmbar loc (hdbar loc hbar)

/-- A concrete float semantics; theorems quantifying over a FloatSem can be
instantiated at it. -/
def ratSem : FloatSem :=
  ⟨fun q => q, fun q => q, fun q => q, fun q => q, fun q => q, 0⟩

/-- C8: barrier cells are preserved by every step.  From any well-formed
simulator state (the invariant every reachable state satisfies: living
agents sit in bounds at grid cells storing their index), every grid cell
holding the barrier sentinel 0xFFFF at the start of stepOnce still holds
0xFFFF at the end of that step: the agent phase never writes the grid,
death draining only clears cells holding living agents, and move draining
only clears such cells and writes empty cells. -/
theorem stepOnce_preserves_barriers (sem : FloatSem) (s : SimState)
    (h : WFWorld s.grid s.peeps) :
    ∀ loc, gridAt s.grid loc = BARRIER →
      gridAt (stepOnce sem s).grid loc = BARRIER := by
  have hWFphase := agentPhase_foldl_WF sem s.params s.grid s.simStep
    (List.range (getPopulationSize s.peeps)) ⟨s.peeps, s.signals, s.rng⟩ h
  intro loc hbar
  exact drains_preserve_barriers
    ((List.range (getPopulationSize s.peeps)).foldl
      (fun acc k => agentPhaseStep sem s.params s.grid s.simStep acc (k + 1))
      ⟨s.peeps, s.signals, s.rng⟩).peeps
    s.grid hWFphase loc hbar

/-- Witness for stepOnce_preserves_barriers: a concrete 2-by-1 world with a
barrier at (0,0) and a living agent at (1,0); the barrier survives the
step. -/
theorem stepOnce_preserves_barriers_witness :
    WFWorld ⟨2, 1, [65535, 1]⟩
      ⟨[none, some (createIndiv 1 [] (1, 0) DEFAULT_PARAMS)], [], []⟩ ∧
    gridAt (stepOnce ratSem
      ⟨DEFAULT_PARAMS, ⟨2, 1, [65535, 1]⟩,
       ⟨[none, some (createIndiv 1 [] (1, 0) DEFAULT_PARAMS)], [], []⟩,
       signalsInit 2 1 1, prngInit 1234, 0, 0, true, false, 0, none, [],
       []⟩).grid (0, 0) = BARRIER :=
  ⟨by decide,
   stepOnce_preserves_barriers ratSem
     ⟨DEFAULT_PARAMS, ⟨2, 1, [65535, 1]⟩,
      ⟨[none, some (createIndiv 1 [] (1, 0) DEFAULT_PARAMS)], [], []⟩,
      signalsInit 2 1 1, prngInit 1234, 0, 0, true, false, 0, none, [], []⟩
     (by decide) (0, 0) (by decide)⟩

/- ── C9: the SIGNAL0_LR sensor ─────────────────────────────────────── -/

/-- The rSig/lSig conditional of the sensors.ts SIGNAL0_LR case: the
layer-0 signal density at a cell if it is in bounds, else 0. -/
def signalLRPart (sig : Signals) (g : Grid) (params : SimParams)
    (loc : Int × Int) : ℚ :=
  if inBoundsXY g.sizeX g.sizeY loc then
    getSignalDensity sig 0 loc params.signalSensorRadius
  else 0

/-- getSignalDensity with the circle test carried out on the integers:
used to evaluate densities at concrete inputs, where the rational circle
test is not kernel-reducible. -/
def signalDensityCellsInt (s : Signals) (layerNum : Nat) (center : Int × Int)
    (iR : Int) : ℚ :=
  if layerNum < s.numLayers then
    let cells := (intRange (-iR) iR).flatMap fun dx =>
      (intRange (-iR) iR).filterMap fun dy =>
        if dx * dx + dy * dy ≤ iR * iR then
          some (center.1 + dx, center.2 + dy)
        else none
    let inCells := cells.filter fun loc => inBoundsXY s.sizeX s.sizeY loc
    let total := (inCells.map fun loc =>
      (s.layers.getD layerNum []).getD (idxXY s.sizeX loc) 0).sum
    if 0 < inCells.length then (total : ℚ) / (inCells.length * 255) else 0
  else 0

theorem getSignalDensity_eq_int (s : Signals) (layerNum : Nat)
    (center : Int × Int) (radius : ℚ) (iR : Int)
    (h1 : Int.floor radius = iR)
    (h2 : ∀ dx dy : Int, (((dx * dx + dy * dy : Int) : ℚ) ≤ radius * radius) ↔
      dx * dx + dy * dy ≤ iR * iR) :
    getSignalDensity s layerNum center radius =
      signalDensityCellsInt s layerNum center iR := by
  by_cases hl : layerNum < s.numLayers
  · simp only [getSignalDensity, signalDensityCellsInt, if_pos hl, h1, h2]
  · simp only [getSignalDensity, signalDensityCellsInt, if_neg hl]

theorem getD_le_255_of_sigBounded (s : Signals) (hb : SigBounded s)
    (layerNum i : Nat) : (s.layers.getD layerNum []).getD i 0 ≤ 255 := by
  by_cases hl : layerNum < s.layers.length
  · have hmem : s.layers.getD layerNum [] ∈ s.layers := by
      rw [List.getD_eq_getElem _ _ hl]
      exact List.getElem_mem _
    by_cases hi : i < (s.layers.getD layerNum []).length
    · have hv : (s.layers.getD layerNum []).getD i 0 ∈
          s.layers.getD layerNum [] := by
        rw [List.getD_eq_getElem _ _ hi]
        exact List.getElem_mem _
      exact hb _ hmem _ hv
    · rw [List.getD_eq_default _ _ (le_of_not_lt hi)]
      decide
  · rw [List.getD_eq_default _ _ (le_of_not_lt hl)]
    simp

theorem mapped_sum_le_card (l : List (Int × Int)) (f : Int × Int → Nat)
    (h : ∀ x ∈ l, f x ≤ 255) : (l.map f).sum ≤ l.length * 255 := by
  calc (l.map f).sum ≤ (l.map f).length • 255 :=
        List.sum_le_card_nsmul _ _ (by
          intro x hx
          obtain ⟨y, hy, rfl⟩ := List.mem_map.mp hx
          exact h y hy)
    _ = l.length * 255 := by rw [List.length_map, smul_eq_mul]

theorem ratio_le_one (t len : Nat) (h : t ≤ len * 255) (hlen : 0 < len) :
    (t : ℚ) / ((len : ℚ) * 255) ≤ 1 := by
  have hpos : (0 : ℚ) < (len : ℚ) * 255 := by
    have h0 : (0 : ℚ) < (len : ℚ) := by exact_mod_cast hlen
    nlinarith
  rw [div_le_one hpos]
  exact_mod_cast h

theorem getSignalDensity_nonneg (s : Signals) (layerNum : Nat)
    (center : Int × Int) (radius : ℚ) :
    0 ≤ getSignalDensity s layerNum center radius := by
  unfold getSignalDensity
  dsimp only
  split
  · split
    · exact div_nonneg (by positivity) (by positivity)
    · exact le_refl 0
  · exact le_refl 0

theorem getSignalDensity_le_one (s : Signals) (layerNum : Nat)
    (center : Int × Int) (radius : ℚ) (hb : SigBounded s) :
    getSignalDensity s layerNum center radius ≤ 1 := by
  unfold getSignalDensity
  dsimp only
  split
  · split
    · rename_i hlen
      exact ratio_le_one _ _
        (mapped_sum_le_card _ _ (fun x _ => getD_le_255_of_sigBounded s hb _ _))
        hlen
    · norm_num
  · norm_num

theorem signalLRPart_nonneg (sig : Signals) (g : Grid) (params : SimParams)
    (loc : Int × Int) : 0 ≤ signalLRPart sig g params loc := by
  unfold signalLRPart
  split
  · exact getSignalDensity_nonneg _ _ _ _
  · exact le_refl 0

theorem signalLRPart_le_one (sig : Signals) (g : Grid) (params : SimParams)
    (loc : Int × Int) (hb : SigBounded sig) :
    signalLRPart sig g params loc ≤ 1 := by
  unfold signalLRPart
  split
  · exact getSignalDensity_le_one _ _ _ _ hb
  · norm_num

/-- Spec-modelled: the sensor value the spec's SIGNAL0_LR row describes —
right/(right+left) where right and left are the SINGLE-CELL layer-0 signal
values at the cells one step to the right and to the left of the last-move
direction, and 0.5 when both are zero.  Written from the spec's words for
comparison against the source's getSensor. -/
def specSignal0LRSingleCell (ind : Indiv) (sig : Signals) : ℚ :=
  let rLoc := (ind.loc.1 + (dirAsCoord (dirRotate90CW ind.lastMoveDir)).1,
               ind.loc.2 + (dirAsCoord (dirRotate90CW ind.lastMoveDir)).2)
  let lLoc := (ind.loc.1 + (dirAsCoord (dirRotate90CCW ind.lastMoveDir)).1,
               ind.loc.2 + (dirAsCoord (dirRotate90CCW ind.lastMoveDir)).2)
  let right := ((sigGet sig 0 rLoc : Nat) : ℚ)
  let left := ((sigGet sig 0 lLoc : Nat) : ℚ)
  if right = 0 ∧ left = 0 then 1/2 else right / (right + left)

/-- The concrete world of the SIGNAL0_LR counterexample: a 4-by-1 arena,
signal 255 only at (3,0). -/
def sigLRSig : Signals := ⟨4, 1, 1, [[0, 0, 0, 255]]⟩

def sigLRGrid : Grid := ⟨4, 1, [0, 1, 0, 0]⟩

/-- The probing agent: at (1,0), last move north, so its right cell is
(2,0) and its left cell is (0,0). -/
def sigLRInd : Indiv :=
  { createIndiv 1 [] (1, 0) DEFAULT_PARAMS with lastMoveDir := 0 }

/-- At default parameters (signalSensorRadius 2), the source sensor reads
the NEIGHBORHOOD densities around the right/left cells, not the single
cells themselves: signal 255 at (3,0) is inside the radius-2 neighborhood
of the right cell (2,0), so the sensor returns 1 although both single
cells read 0 and the spec formula yields 0.5. -/
theorem signal0LR_not_single_cell :
    (getSensor ratSem sigLRInd 20 sigLRGrid sigLRSig
        ⟨[none, some sigLRInd], [], []⟩ DEFAULT_PARAMS (prngInit 1) 0).1 ≠
      specSignal0LRSingleCell sigLRInd sigLRSig := by
  have h1 : Int.floor DEFAULT_PARAMS.signalSensorRadius = 2 := by decide
  have h2 : ∀ dx dy : Int,
      (((dx * dx + dy * dy : Int) : ℚ) ≤
        DEFAULT_PARAMS.signalSensorRadius * DEFAULT_PARAMS.signalSensorRadius) ↔
      dx * dx + dy * dy ≤ 2 * 2 := by
    intro dx dy
    have hrad : DEFAULT_PARAMS.signalSensorRadius = (2 : ℚ) := rfl
    rw [hrad, show (2 : ℚ) * 2 = ((4 : Int) : ℚ) by norm_num,
      show (2 : Int) * 2 = 4 by norm_num]
    exact Int.cast_le
  have hsen : getSensor ratSem sigLRInd 20 sigLRGrid sigLRSig
      ⟨[none, some sigLRInd], [], []⟩ DEFAULT_PARAMS (prngInit 1) 0 =
      (if 0 < getSignalDensity sigLRSig 0 (2, 0)
            DEFAULT_PARAMS.signalSensorRadius +
          getSignalDensity sigLRSig 0 (0, 0)
            DEFAULT_PARAMS.signalSensorRadius
       then getSignalDensity sigLRSig 0 (2, 0)
            DEFAULT_PARAMS.signalSensorRadius /
          (getSignalDensity sigLRSig 0 (2, 0)
              DEFAULT_PARAMS.signalSensorRadius +
            getSignalDensity sigLRSig 0 (0, 0)
              DEFAULT_PARAMS.signalSensorRadius)
       else 1/2, prngInit 1) := rfl
  have hR : getSignalDensity sigLRSig 0 (2, 0)
      DEFAULT_PARAMS.signalSensorRadius =
      ((255 : Nat) : ℚ) / (((4 : Nat) : ℚ) * 255) := by
    rw [getSignalDensity_eq_int _ _ _ _ 2 h1 h2]
    rfl
  have hL : getSignalDensity sigLRSig 0 (0, 0)
      DEFAULT_PARAMS.signalSensorRadius =
      ((0 : Nat) : ℚ) / (((3 : Nat) : ℚ) * 255) := by
    rw [getSignalDensity_eq_int _ _ _ _ 2 h1 h2]
    rfl
  have hs1 : sigGet sigLRSig 0 (2, 0) = 0 := rfl
  have hs2 : sigGet sigLRSig 0 (0, 0) = 0 := rfl
  rw [hsen]
  dsimp only
  rw [hR, hL]
  simp only [specSignal0LRSingleCell]
  norm_num [show sigGet sigLRSig 0
    (sigLRInd.loc.1 + (dirAsCoord (dirRotate90CW sigLRInd.lastMoveDir)).1,
     sigLRInd.loc.2 + (dirAsCoord (dirRotate90CW sigLRInd.lastMoveDir)).2) = 0
    from rfl,
    show sigGet sigLRSig 0
    (sigLRInd.loc.1 + (dirAsCoord (dirRotate90CCW sigLRInd.lastMoveDir)).1,
     sigLRInd.loc.2 + (dirAsCoord (dirRotate90CCW sigLRInd.lastMoveDir)).2) = 0
    from rfl]

/-- C9 (amended): the SIGNAL0_LR sensor leaves the generator untouched and
returns rSig/(rSig+lSig), where rSig and lSig are the layer-0 NEIGHBORHOOD
signal densities (getSignalDensity within params.signalSensorRadius, 0 for
an out-of-bounds cell) at the cells one step to the right and to the left
of the last-move direction — not the single-cell values — with fallback
1/2 exactly when both densities are zero; under the 255-bound invariant on
signal values the result lies in [0, 1]. -/
theorem signal0LR_density_spec (sem : FloatSem) (ind : Indiv) (g : Grid)
    (sig : Signals) (p : Peeps) (params : SimParams) (st : PRNGState)
    (simStep : Nat) (hb : SigBounded sig) :
    (getSensor sem ind 20 g sig p params st simStep).2 = st ∧
    (getSensor sem ind 20 g sig p params st simStep).1 =
      (if signalLRPart sig g params
            (ind.loc.1 + (dirAsCoord (dirRotate90CW ind.lastMoveDir)).1,
             ind.loc.2 + (dirAsCoord (dirRotate90CW ind.lastMoveDir)).2) = 0 ∧
          signalLRPart sig g params
            (ind.loc.1 + (dirAsCoord (dirRotate90CCW ind.lastMoveDir)).1,
             ind.loc.2 + (dirAsCoord (dirRotate90CCW ind.lastMoveDir)).2) = 0
       then 1/2
       else signalLRPart sig g params
            (ind.loc.1 + (dirAsCoord (dirRotate90CW ind.lastMoveDir)).1,
             ind.loc.2 + (dirAsCoord (dirRotate90CW ind.lastMoveDir)).2) /
          (signalLRPart sig g params
            (ind.loc.1 + (dirAsCoord (dirRotate90CW ind.lastMoveDir)).1,
             ind.loc.2 + (dirAsCoord (dirRotate90CW ind.lastMoveDir)).2) +
           signalLRPart sig g params
            (ind.loc.1 + (dirAsCoord (dirRotate90CCW ind.lastMoveDir)).1,
             ind.loc.2 + (dirAsCoord (dirRotate90CCW ind.lastMoveDir)).2))) ∧
    0 ≤ (getSensor sem ind 20 g sig p params st simStep).1 ∧
    (getSensor sem ind 20 g sig p params st simStep).1 ≤ 1 := by
  have hsen : getSensor sem ind 20 g sig p params st simStep =
      (if 0 < signalLRPart sig g params
            (ind.loc.1 + (dirAsCoord (dirRotate90CW ind.lastMoveDir)).1,
             ind.loc.2 + (dirAsCoord (dirRotate90CW ind.lastMoveDir)).2) +
          signalLRPart sig g params
            (ind.loc.1 + (dirAsCoord (dirRotate90CCW ind.lastMoveDir)).1,
             ind.loc.2 + (dirAsCoord (dirRotate90CCW ind.lastMoveDir)).2)
       then signalLRPart sig g params
            (ind.loc.1 + (dirAsCoord (dirRotate90CW ind.lastMoveDir)).1,
             ind.loc.2 + (dirAsCoord (dirRotate90CW ind.lastMoveDir)).2) /
          (signalLRPart sig g params
            (ind.loc.1 + (dirAsCoord (dirRotate90CW ind.lastMoveDir)).1,
             ind.loc.2 + (dirAsCoord (dirRotate90CW ind.lastMoveDir)).2) +
           signalLRPart sig g params
            (ind.loc.1 + (dirAsCoord (dirRotate90CCW ind.lastMoveDir)).1,
             ind.loc.2 + (dirAsCoord (dirRotate90CCW ind.lastMoveDir)).2))
       else 1/2, st) := rfl
  rw [hsen]
  dsimp only
  set R := signalLRPart sig g params
    (ind.loc.1 + (dirAsCoord (dirRotate90CW ind.lastMoveDir)).1,
     ind.loc.2 + (dirAsCoord (dirRotate90CW ind.lastMoveDir)).2) with hRdef
  set L := signalLRPart sig g params
    (ind.loc.1 + (dirAsCoord (dirRotate90CCW ind.lastMoveDir)).1,
     ind.loc.2 + (dirAsCoord (dirRotate90CCW ind.lastMoveDir)).2) with hLdef
  have hRnn : 0 ≤ R := signalLRPart_nonneg _ _ _ _
  have hLnn : 0 ≤ L := signalLRPart_nonneg _ _ _ _
  have hRle : R ≤ 1 := signalLRPart_le_one _ _ _ _ hb
  have hLle : L ≤ 1 := signalLRPart_le_one _ _ _ _ hb
  refine ⟨rfl, ?_, ?_, ?_⟩
  · by_cases h : 0 < R + L
    · rw [if_pos h, if_neg]
      intro hcon
      rw [hcon.1, hcon.2] at h
      norm_num at h
    · rw [if_neg h, if_pos]
      constructor <;> linarith
  · by_cases h : 0 < R + L
    · rw [if_pos h]
      exact div_nonneg hRnn (by linarith)
    · rw [if_neg h]
      norm_num
  · by_cases h : 0 < R + L
    · rw [if_pos h]
      rw [div_le_one h]
      linarith
    · rw [if_neg h]
      norm_num

instance (s : Signals) : Decidable (SigBounded s) := by
  unfold SigBounded; infer_instance

/-- Witness for signal0LR_density_spec on a concrete bounded signal
field. -/
theorem signal0LR_density_spec_witness :
    SigBounded sigLRSig ∧
    0 ≤ (getSensor ratSem sigLRInd 20 sigLRGrid sigLRSig
        ⟨[none, some sigLRInd], [], []⟩ DEFAULT_PARAMS (prngInit 7) 0).1 :=
  ⟨by decide,
   (signal0LR_density_spec ratSem sigLRInd sigLRGrid sigLRSig
     ⟨[none, some sigLRInd], [], []⟩ DEFAULT_PARAMS (prngInit 7) 0
     (by decide)).2.2.1⟩

/- ── Spawning (genome.ts crossover, part_002 spawnNewGeneration) ───── -/

/-- genome.ts crossover: single-point crossover; the child takes
parent1[0..cross1] and parent2[cross2+1..].  If either parent is empty the
other is cloned; an empty child is replaced by one random gene (dead code
for non-empty parents, kept for fidelity). -/
def crossover (parent1 parent2 : List Gene) (st : PRNGState) :
    List Gene × PRNGState :=
  if parent1.length = 0 then (parent2, st)
  else if parent2.length = 0 then (parent1, st)
  else
    let c1 := nextInt st parent1.length
    let c2 := nextInt c1.2 parent2.length
    let child := parent1.take (c1.1 + 1) ++ parent2.drop (c2.1 + 1)
    if 0 < child.length then (child, c2.2)
    else
      let g := makeRandomGene c2.2
      ([g.1], g.2)

/-- part_002 selectParent, returning the INDEX of the chosen survivor.
The source returns the array element itself and later compares selections
with JS reference equality; since the survivors array holds pairwise
distinct objects and a fixed index always yields the same object, that
reference equality is exactly equality of selected indices, which this
embedding makes explicit. -/
def selectParent (survivors : List Indiv) (params : SimParams)
    (st : PRNGState) : Nat × PRNGState :=
  if !params.chooseParentsByFitness || survivors.length ≤ 1 then
    nextInt st survivors.length
  else
    let a := nextInt st survivors.length
    let b := nextInt a.2 survivors.length
    let ia := survivors.getD a.1 (createIndiv 0 [] (0, 0) params)
    let ib := survivors.getD b.1 (createIndiv 0 [] (0, 0) params)
    let distA := |(ia.loc.1 : ℚ) - (params.sizeX : ℚ) / 2| +
      |(ia.loc.2 : ℚ) - (params.sizeY : ℚ) / 2|
    let distB := |(ib.loc.1 : ℚ) - (params.sizeX : ℚ) / 2| +
      |(ib.loc.2 : ℚ) - (params.sizeY : ℚ) / 2|
    if distA ≤ distB then (a.1, b.2) else (b.1, b.2)

/-- The `while (parent2 === parent1 && attempts < 10)` retry loop of
part_002 spawnNewGeneration, on selected indices. -/
def selectParent2Loop (survivors : List Indiv) (params : SimParams)
    (p1 : Nat) : Nat → Nat × PRNGState → Nat × PRNGState
  | 0, p2 => p2
  | n + 1, p2 =>
    if p2.1 = p1 then
      selectParent2Loop survivors params p1 n
        (selectParent survivors params p2.2)
    else p2

/-- The child-genome construction of one loop iteration of part_002
spawnNewGeneration, before mutations: sexual crossover of two selected
parents (with the identity retry) when enabled and possible, otherwise a
clone of one selected parent. -/
def spawnChildGenome (survivors : List Indiv) (params : SimParams)
    (st : PRNGState) : List Gene × PRNGState :=
  if params.sexualReproduction && decide (2 ≤ survivors.length) then
    let p1 := selectParent survivors params st
    let p2 := selectParent survivors params p1.2
    let p2f := selectParent2Loop survivors params p1.1 10 p2
    crossover
      (survivors.getD p1.1 (createIndiv 0 [] (0, 0) params)).genome
      (survivors.getD p2f.1 (createIndiv 0 [] (0, 0) params)).genome
      p2f.2
  else
    let p := selectParent survivors params st
    ((survivors.getD p.1 (createIndiv 0 [] (0, 0) params)).genome, p.2)

/-- One full child of part_002 spawnNewGeneration: construction then point
mutations then insertion/deletion. -/
def spawnOneChild (survivors : List Indiv) (params : SimParams)
    (st : PRNGState) : List Gene × PRNGState :=
  let cg := spawnChildGenome survivors params st
  let pm := applyPointMutations cg.1 cg.2 params.pointMutationRate
  applyInsertionDeletion pm.1 pm.2 params.geneInsertionDeletionRate
    params.deletionFraction params.genomeMaxLength

/-- The offspring loop of part_002 spawnNewGeneration. -/
def spawnLoop (survivors : List Indiv) (params : SimParams) :
    Nat → PRNGState → List (List Gene) × PRNGState
  | 0, st => ([], st)
  | n + 1, st =>
    let c := spawnOneChild survivors params st
    let rest := spawnLoop survivors params n c.2
    (c.1 :: rest.1, rest.2)

/-- The no-survivors branch of part_002 spawnNewGeneration: a fully random
population. -/
def spawnRandomLoop (params : SimParams) :
    Nat → PRNGState → List (List Gene) × PRNGState
  | 0, st => ([], st)
  | n + 1, st =>
    let len := nextRange st params.genomeInitialLengthMin
      params.genomeInitialLengthMax
    let g := makeRandomGenome len.2 len.1
    let rest := spawnRandomLoop params n g.2
    (g.1 :: rest.1, rest.2)

/-- part_002 spawnNewGeneration. -/
def spawnNewGeneration (survivors : List Indiv) (params : SimParams)
    (st : PRNGState) : List (List Gene) × PRNGState :=
  if survivors.length = 0 then spawnRandomLoop params params.population st
  else spawnLoop survivors params params.population st

theorem nextUint32_lt (st : PRNGState) : (nextUint32 st).1 < 4294967296 :=
  Nat.mod_lt _ (by norm_num)

theorem nextInt_lt (st : PRNGState) (max : Nat) (h : 0 < max) :
    (nextInt st max).1 < max := by
  show (nextUint32 st).1 * max / 4294967296 < max
  rw [Nat.div_lt_iff_lt_mul (by norm_num : (0:Nat) < 4294967296)]
  calc (nextUint32 st).1 * max < 4294967296 * max :=
        (mul_lt_mul_right h).mpr (nextUint32_lt st)
    _ = max * 4294967296 := Nat.mul_comm _ _

theorem selectParent_lt (survivors : List Indiv) (params : SimParams)
    (st : PRNGState) (h : 0 < survivors.length) :
    (selectParent survivors params st).1 < survivors.length := by
  unfold selectParent
  dsimp only
  split
  · exact nextInt_lt _ _ h
  · split
    · exact nextInt_lt _ _ h
    · exact nextInt_lt _ _ h

theorem selectParent2Loop_lt (survivors : List Indiv) (params : SimParams)
    (p1 : Nat) (fuel : Nat) (p2 : Nat × PRNGState)
    (h : 0 < survivors.length) (hp2 : p2.1 < survivors.length) :
    (selectParent2Loop survivors params p1 fuel p2).1 < survivors.length := by
  induction fuel generalizing p2 with
  | zero => exact hp2
  | succ n ih =>
    unfold selectParent2Loop
    split
    · exact ih _ (selectParent_lt _ _ _ h)
    · exact hp2

theorem getD_mem_of_lt {α : Type} (l : List α) (i : Nat) (d : α)
    (h : i < l.length) : l.getD i d ∈ l := by
  rw [List.getD_eq_getElem _ _ h]
  exact List.getElem_mem _

theorem crossover_length (p1 p2 : List Gene) (st : PRNGState)
    (h1 : 1 ≤ p1.length) (h2 : 1 ≤ p2.length) :
    1 ≤ (crossover p1 p2 st).1.length ∧
    (crossover p1 p2 st).1.length ≤ p1.length + p2.length - 1 := by
  unfold crossover
  rw [if_neg (by omega), if_neg (by omega)]
  dsimp only
  have hc1 : (nextInt st p1.length).1 < p1.length := nextInt_lt _ _ (by omega)
  split
  · rw [List.length_append, List.length_take, List.length_drop]
    omega
  · rename_i hempty
    rw [List.length_append, List.length_take, List.length_drop] at hempty
    omega

theorem chance_zero (st : PRNGState) :
    chance st 0 = (false, (nextUint32 st).2) := by
  unfold chance next01
  dsimp only
  congr 1
  rw [decide_eq_false_iff_not, not_lt]
  positivity

theorem applyPointMutations_length (genome : List Gene) (st : PRNGState)
    (rate : ℚ) :
    (applyPointMutations genome st rate).1.length = genome.length := by
  induction genome generalizing st with
  | nil => rfl
  | cons g rest ih =>
    unfold applyPointMutations
    dsimp only
    split
    · simp only [List.length_cons, ih]
    · simp only [List.length_cons, ih]

theorem applyPointMutations_rate_zero (genome : List Gene) (st : PRNGState) :
    (applyPointMutations genome st 0).1 = genome := by
  induction genome generalizing st with
  | nil => rfl
  | cons g rest ih =>
    unfold applyPointMutations
    dsimp only
    rw [chance_zero]
    dsimp only
    rw [if_neg (by simp)]
    dsimp only
    rw [ih]

theorem applyInsertionDeletion_rate_zero (genome : List Gene)
    (st : PRNGState) (delF : ℚ) (maxLen : Nat) :
    (applyInsertionDeletion genome st 0 delF maxLen).1 = genome := by
  unfold applyInsertionDeletion
  dsimp only
  split
  · rfl
  · rw [chance_zero]
    dsimp only
    rw [if_neg (by simp)]

theorem applyInsertionDeletion_length (genome : List Gene) (st : PRNGState)
    (rate delF : ℚ) (maxLen : Nat) (h : 1 ≤ genome.length) :
    1 ≤ (applyInsertionDeletion genome st rate delF maxLen).1.length ∧
    (applyInsertionDeletion genome st rate delF maxLen).1.length ≤
      max genome.length maxLen := by
  unfold applyInsertionDeletion
  dsimp only
  split
  · exact ⟨h, Nat.le_max_left _ _⟩
  · split
    · split
      · split
        · rename_i hgt
          have hi : (nextInt ((chance ((chance st rate).2) delF).2)
              genome.length).1 < genome.length := nextInt_lt _ _ (by omega)
          rw [List.length_eraseIdx]
          rw [if_pos hi]
          constructor
          · omega
          · exact le_trans (by omega) (Nat.le_max_left _ _)
        · exact ⟨h, Nat.le_max_left _ _⟩
      · split
        · rename_i hlt
          have hi : (nextInt ((chance ((chance st rate).2) delF).2)
              (genome.length + 1)).1 < genome.length + 1 :=
            nextInt_lt _ _ (by omega)
          rw [List.length_insertIdx _ _ (Nat.lt_succ_iff.mp hi)]
          constructor
          · omega
          · exact le_trans (by omega) (Nat.le_max_right _ _)
        · exact ⟨h, Nat.le_max_left _ _⟩
    · exact ⟨h, Nat.le_max_left _ _⟩

theorem spawnChildGenome_bounds (survivors : List Indiv) (params : SimParams)
    (st : PRNGState) (hM : 1 ≤ params.genomeMaxLength)
    (hs : 0 < survivors.length)
    (hg : ∀ ind ∈ survivors, 1 ≤ ind.genome.length ∧
      ind.genome.length ≤ params.genomeMaxLength) :
    1 ≤ (spawnChildGenome survivors params st).1.length ∧
    (spawnChildGenome survivors params st).1.length ≤
      2 * params.genomeMaxLength - 1 := by
  unfold spawnChildGenome
  dsimp only
  split
  · have hp1 : (selectParent survivors params st).1 < survivors.length :=
      selectParent_lt _ _ _ hs
    have hp2 : (selectParent2Loop survivors params
        (selectParent survivors params st).1 10
        (selectParent survivors params
          (selectParent survivors params st).2)).1 < survivors.length :=
      selectParent2Loop_lt _ _ _ _ _ hs (selectParent_lt _ _ _ hs)
    obtain ⟨ha1, ha2⟩ := hg _ (getD_mem_of_lt _ _
      (createIndiv 0 [] (0, 0) params) hp1)
    obtain ⟨hb1, hb2⟩ := hg _ (getD_mem_of_lt _ _
      (createIndiv 0 [] (0, 0) params) hp2)
    obtain ⟨hc1, hc2⟩ := crossover_length
      (survivors.getD (selectParent survivors params st).1
        (createIndiv 0 [] (0, 0) params)).genome
      (survivors.getD (selectParent2Loop survivors params
        (selectParent survivors params st).1 10
        (selectParent survivors params
          (selectParent survivors params st).2)).1
        (createIndiv 0 [] (0, 0) params)).genome
      (selectParent2Loop survivors params
        (selectParent survivors params st).1 10
        (selectParent survivors params
          (selectParent survivors params st).2)).2
      ha1 hb1
    exact ⟨hc1, le_trans hc2 (by omega)⟩
  · dsimp only
    have hp : (selectParent survivors params st).1 < survivors.length :=
      selectParent_lt _ _ _ hs
    obtain ⟨ha1, ha2⟩ := hg _ (getD_mem_of_lt _ _
      (createIndiv 0 [] (0, 0) params) hp)
    exact ⟨ha1, by omega⟩

theorem spawnOneChild_bounds (survivors : List Indiv) (params : SimParams)
    (st : PRNGState) (hM : 1 ≤ params.genomeMaxLength)
    (hs : 0 < survivors.length)
    (hg : ∀ ind ∈ survivors, 1 ≤ ind.genome.length ∧
      ind.genome.length ≤ params.genomeMaxLength) :
    1 ≤ (spawnOneChild survivors params st).1.length ∧
    (spawnOneChild survivors params st).1.length ≤
      2 * params.genomeMaxLength - 1 := by
  obtain ⟨h1, h2⟩ := spawnChildGenome_bounds survivors params st hM hs hg
  unfold spawnOneChild
  dsimp only
  have hpm := applyPointMutations_length
    (spawnChildGenome survivors params st).1
    (spawnChildGenome survivors params st).2 params.pointMutationRate
  obtain ⟨hd1, hd2⟩ := applyInsertionDeletion_length
    (applyPointMutations (spawnChildGenome survivors params st).1
      (spawnChildGenome survivors params st).2 params.pointMutationRate).1
    (applyPointMutations (spawnChildGenome survivors params st).1
      (spawnChildGenome survivors params st).2 params.pointMutationRate).2
    params.geneInsertionDeletionRate params.deletionFraction
    params.genomeMaxLength (by omega)
  refine ⟨hd1, le_trans hd2 ?_⟩
  rw [hpm]
  omega

theorem spawnLoop_bounds (survivors : List Indiv) (params : SimParams)
    (hM : 1 ≤ params.genomeMaxLength) (hs : 0 < survivors.length)
    (hg : ∀ ind ∈ survivors, 1 ≤ ind.genome.length ∧
      ind.genome.length ≤ params.genomeMaxLength) :
    ∀ (n : Nat) (st : PRNGState),
      ∀ g ∈ (spawnLoop survivors params n st).1,
        1 ≤ g.length ∧ g.length ≤ 2 * params.genomeMaxLength - 1 := by
  intro n
  induction n with
  | zero =>
    intro st g hmem
    simp only [spawnLoop, List.not_mem_nil] at hmem
  | succ n ih =>
    intro st g hmem
    unfold spawnLoop at hmem
    dsimp only at hmem
    rcases List.mem_cons.mp hmem with hhead | htail
    · rw [hhead]
      exact spawnOneChild_bounds survivors params st hM hs hg
    · exact ih _ g htail

/-- C6 (amended): when there are survivors and every survivor genome has
length in [1, genomeMaxLength] (with genomeMaxLength at least 1), every
genome produced by spawnNewGeneration has length in
[1, 2*genomeMaxLength - 1].  The crossover child takes cross1+1 genes of
one parent and up to len2-1 genes of the other with NO clamp to
genomeMaxLength, so a child can reach len1+len2-1 = 2*genomeMaxLength - 1
genes; point mutations preserve length, and insertion only fires below
genomeMaxLength.  The spec's claimed upper bound genomeMaxLength is false;
the bound 2*genomeMaxLength - 1 is tight. -/
theorem spawn_genome_length_bounds (survivors : List Indiv)
    (params : SimParams) (st : PRNGState)
    (hM : 1 ≤ params.genomeMaxLength) (hs : 0 < survivors.length)
    (hg : ∀ ind ∈ survivors, 1 ≤ ind.genome.length ∧
      ind.genome.length ≤ params.genomeMaxLength) :
    ∀ g ∈ (spawnNewGeneration survivors params st).1,
      1 ≤ g.length ∧ g.length ≤ 2 * params.genomeMaxLength - 1 := by
  intro g hmem
  unfold spawnNewGeneration at hmem
  rw [if_neg (by omega)] at hmem
  exact spawnLoop_bounds survivors params hM hs hg _ _ g hmem

/-- The counterexample world for C6: two survivors with two-gene genomes
and genomeMaxLength 2; both mutation rates 0, sexual reproduction with
random (non-fitness) parent selection, population 1. -/
def spawnCxGene : Gene := ⟨1, 0, 1, 0, 0⟩

def spawnCxParams : SimParams :=
  { DEFAULT_PARAMS with
    population := 1
    genomeMaxLength := 2
    pointMutationRate := 0
    geneInsertionDeletionRate := 0
    sexualReproduction := true
    chooseParentsByFitness := false }

def spawnCxSurvivors : List Indiv :=
  [createIndiv 1 [spawnCxGene, spawnCxGene] (0, 0) spawnCxParams,
   createIndiv 2 [spawnCxGene, spawnCxGene] (1, 0) spawnCxParams]

/-- With seed 1 the draws select the two distinct parents and cut points
cross1 = 1, cross2 = 0, so the crossover child has 2 + 1 = 3 genes: more
than genomeMaxLength = 2, although every parent genome is within
[1, genomeMaxLength].  Mutations are disabled, so the spawned genome keeps
its 3 genes. -/
theorem spawn_exceeds_genomeMaxLength :
    spawnCxParams.genomeMaxLength = 2 ∧
    (∀ ind ∈ spawnCxSurvivors, 1 ≤ ind.genome.length ∧
      ind.genome.length ≤ spawnCxParams.genomeMaxLength) ∧
    spawnCxParams.genomeMaxLength <
      ((spawnNewGeneration spawnCxSurvivors spawnCxParams
        (prngInit 1)).1.getD 0 []).length := by
  refine ⟨rfl, by decide, ?_⟩
  have e : (spawnNewGeneration spawnCxSurvivors spawnCxParams
      (prngInit 1)).1.getD 0 [] =
      (spawnOneChild spawnCxSurvivors spawnCxParams (prngInit 1)).1 := rfl
  rw [e]
  unfold spawnOneChild
  dsimp only
  rw [show spawnCxParams.geneInsertionDeletionRate = 0 from rfl,
    show spawnCxParams.pointMutationRate = 0 from rfl]
  rw [applyInsertionDeletion_rate_zero, applyPointMutations_rate_zero]
  decide

/-- Witness for spawn_genome_length_bounds at the concrete two-survivor
world: the single spawned genome has length within [1, 3]. -/
theorem spawn_genome_length_bounds_witness :
    (1 ≤ spawnCxParams.genomeMaxLength ∧ 0 < spawnCxSurvivors.length ∧
      (∀ ind ∈ spawnCxSurvivors, 1 ≤ ind.genome.length ∧
        ind.genome.length ≤ spawnCxParams.genomeMaxLength)) ∧
    1 ≤ ((spawnNewGeneration spawnCxSurvivors spawnCxParams
        (prngInit 5)).1.getD 0 []).length ∧
    ((spawnNewGeneration spawnCxSurvivors spawnCxParams
        (prngInit 5)).1.getD 0 []).length ≤
      2 * spawnCxParams.genomeMaxLength - 1 := by
  refine ⟨⟨by decide, by decide, by decide⟩, ?_⟩
  have hmem : (spawnNewGeneration spawnCxSurvivors spawnCxParams
      (prngInit 5)).1.getD 0 [] ∈
      (spawnNewGeneration spawnCxSurvivors spawnCxParams (prngInit 5)).1 := by
    have e : (spawnNewGeneration spawnCxSurvivors spawnCxParams
        (prngInit 5)).1 =
        [(spawnOneChild spawnCxSurvivors spawnCxParams (prngInit 5)).1] := rfl
    rw [e]
    simp
  exact spawn_genome_length_bounds spawnCxSurvivors spawnCxParams
    (prngInit 5) (by decide) (by decide) (by decide) _ hmem

/- ── Barriers (barriers.ts) ────────────────────────────────────────── -/

/-- barriers.ts setBarrier: in-bounds-guarded write of the barrier value;
gridSet already carries that guard. -/
def setBarrier (g : Grid) (loc : Int × Int) : Grid := gridSet g loc BARRIER

def createVerticalBarConstant (g : Grid) : Grid :=
  let midX := g.sizeX / 2
  let startY := g.sizeY / 4
  let endY := g.sizeY - startY
  (List.range (endY - startY)).foldl
    (fun gr k => setBarrier gr ((midX : Int), ((startY + k : Nat) : Int))) g

def createVerticalBarRandom (g : Grid) (st : PRNGState) : Grid × PRNGState :=
  let r := nextInt st (g.sizeX / 2)
  let x := g.sizeX / 4 + r.1
  let startY := g.sizeY / 4
  let endY := g.sizeY - startY
  ((List.range (endY - startY)).foldl
    (fun gr k => setBarrier gr ((x : Int), ((startY + k : Nat) : Int))) g,
   r.2)

/-- barriers.ts createFiveBlocks.  The JS block centers are floors of
float quotients by 2 and 4, which are exact, so they are the integer
quotients here. -/
def createFiveBlocks (g : Grid) : Grid :=
  let halfWidth := (max 1 (g.sizeX / 50) : Int)
  let halfHeight := (max 4 (g.sizeY / 6) : Int)
  let positions : List (Nat × Nat) :=
    [(g.sizeX / 4, g.sizeY / 4), (3 * g.sizeX / 4, g.sizeY / 4),
     (g.sizeX / 2, g.sizeY / 2), (g.sizeX / 4, 3 * g.sizeY / 4),
     (3 * g.sizeX / 4, 3 * g.sizeY / 4)]
  positions.foldl
    (fun gr pos =>
      (intRange (-halfWidth) halfWidth).foldl
        (fun gr2 dx =>
          (intRange (-halfHeight) halfHeight).foldl
            (fun gr3 dy => setBarrier gr3 ((pos.1 : Int) + dx, (pos.2 : Int) + dy))
            gr2)
        gr)
    g

def createHorizontalBarConstant (g : Grid) : Grid :=
  let midY := g.sizeY / 2
  let startX := g.sizeX / 4
  let endX := g.sizeX - startX
  (List.range (endX - startX)).foldl
    (fun gr k => setBarrier gr (((startX + k : Nat) : Int), (midY : Int))) g

/-- Math.floor(n * 0.15) of the source, as the exact rational floor.  The
binary double 0.15 is slightly below 15/100, so for the n where 15n/100 is
an integer (n = 20, 40, ...) the JS floor is one less than this value; the
determinism theorem does not depend on the difference. -/
def floorMulFrac (n : Nat) (num den : Nat) : Nat := n * num / den

def createFloatingIslands (g : Grid) (st : PRNGState) : Grid × PRNGState :=
  let islandRadius := (max 2 (min g.sizeX g.sizeY / 12) : Int)
  let go : Grid × PRNGState → Grid × PRNGState := fun acc =>
    let rx := nextInt acc.2 (floorMulFrac g.sizeX 7 10)
    let ry := nextInt rx.2 (floorMulFrac g.sizeY 7 10)
    let cx := (floorMulFrac g.sizeX 15 100 + rx.1 : Int)
    let cy := (floorMulFrac g.sizeY 15 100 + ry.1 : Int)
    ((intRange (-islandRadius) islandRadius).foldl
      (fun gr dx =>
        (intRange (-islandRadius) islandRadius).foldl
          (fun gr2 dy =>
            if dx * dx + dy * dy ≤ islandRadius * islandRadius then
              setBarrier gr2 (cx + dx, cy + dy)
            else gr2)
          gr)
      acc.1, ry.2)
  go (go (go (go (go (g, st)))))

/-- barriers.ts createSpots.  The source's `for (cx = spacing; cx < sizeX;
cx += spacing)` never terminates when spacing is 0 (grids smaller than 4);
this embedding then places nothing. -/
def createSpots (g : Grid) : Grid :=
  let spotRadius := (max 1 (min g.sizeX g.sizeY / 20) : Int)
  let spacing := min g.sizeX g.sizeY / 4
  let countX := if spacing = 0 then 0 else (g.sizeX - 1) / spacing
  let countY := if spacing = 0 then 0 else (g.sizeY - 1) / spacing
  (List.range countX).foldl
    (fun gr i =>
      (List.range countY).foldl
        (fun gr2 j =>
          let cx := ((spacing * (i + 1) : Nat) : Int)
          let cy := ((spacing * (j + 1) : Nat) : Int)
          (intRange (-spotRadius) spotRadius).foldl
            (fun gr3 dx =>
              (intRange (-spotRadius) spotRadius).foldl
                (fun gr4 dy =>
                  if dx * dx + dy * dy ≤ spotRadius * spotRadius then
                    setBarrier gr4 (cx + dx, cy + dy)
                  else gr4)
                gr3)
            gr2)
        gr)
    g

/-- barriers.ts createBarrier, by BarrierType enum value. -/
def createBarrier (g : Grid) (barrierType : Nat) (st : PRNGState) :
    Grid × PRNGState :=
  if barrierType = 1 then (createVerticalBarConstant g, st)
  else if barrierType = 2 then createVerticalBarRandom g st
  else if barrierType = 3 then (createFiveBlocks g, st)
  else if barrierType = 4 then (createHorizontalBarConstant g, st)
  else if barrierType = 5 then createFloatingIslands g st
  else if barrierType = 6 then (createSpots g, st)
  else (g, st)

/- ── Survival criteria (survival.ts) ───────────────────────────────── -/

/-- peeps.ts getLiving: living individuals above the reserved index 0, in
storage order. -/
def peepsGetLiving (p : Peeps) : List Indiv :=
  (p.individuals.drop 1).filterMap fun o =>
    match o with
    | some ind => if ind.alive then some ind else none
    | none => none

def surviveCircle (ind : Indiv) (params : SimParams) : Bool :=
  let centerX := (params.sizeX : ℚ) / 2
  let centerY := (params.sizeY : ℚ) / 2
  let radius := (min params.sizeX params.sizeY : ℚ) / 4
  let dx := (ind.loc.1 : ℚ) - centerX
  let dy := (ind.loc.2 : ℚ) - centerY
  decide (dx * dx + dy * dy ≤ radius * radius)

def surviveCenterWeighted (sem : FloatSem) (ind : Indiv)
    (params : SimParams) : Bool :=
  let centerX := (params.sizeX : ℚ) / 2
  let centerY := (params.sizeY : ℚ) / 2
  let maxDist := sem.sqrt (centerX * centerX + centerY * centerY)
  let dx := (ind.loc.1 : ℚ) - centerX
  let dy := (ind.loc.2 : ℚ) - centerY
  let dist := sem.sqrt (dx * dx + dy * dy)
  decide (1 - dist / maxDist > 1/2)

def surviveCornerWeighted (sem : FloatSem) (ind : Indiv)
    (params : SimParams) : Bool :=
  let corners : List (ℚ × ℚ) :=
    [(0, 0), ((params.sizeX : ℚ) - 1, 0), (0, (params.sizeY : ℚ) - 1),
     ((params.sizeX : ℚ) - 1, (params.sizeY : ℚ) - 1)]
  let dists := corners.map fun c =>
    sem.sqrt (((ind.loc.1 : ℚ) - c.1) * ((ind.loc.1 : ℚ) - c.1) +
      ((ind.loc.2 : ℚ) - c.2) * ((ind.loc.2 : ℚ) - c.2))
  let minDist := dists.foldl min (dists.getD 0 0)
  let maxDist := sem.sqrt ((params.sizeX : ℚ) * params.sizeX +
    (params.sizeY : ℚ) * params.sizeY) / 2
  decide (minDist < maxDist * (25/100))

def survivePairs (ind : Indiv) (g : Grid) : Bool :=
  (neighborhoodCells g.sizeX g.sizeY ind.loc (3/2)).any fun loc =>
    decide (loc ≠ ind.loc) && gridIsOccupiedAt g loc

def surviveContact (ind : Indiv) (g : Grid) : Bool :=
  ([(-1, 0), (1, 0), (0, -1), (0, 1)] : List (Int × Int)).any fun off =>
    let loc := (ind.loc.1 + off.1, ind.loc.2 + off.2)
    inBoundsXY g.sizeX g.sizeY loc && gridIsOccupiedAt g loc

def surviveAgainstAnyWall (ind : Indiv) (params : SimParams) : Bool :=
  decide (ind.loc.1 = 0) || decide (ind.loc.1 = (params.sizeX : Int) - 1) ||
  decide (ind.loc.2 = 0) || decide (ind.loc.2 = (params.sizeY : Int) - 1)

def surviveTouchAnyWall (ind : Indiv) (params : SimParams) : Bool :=
  decide (ind.loc.1 ≤ 1) || decide ((params.sizeX : Int) - 2 ≤ ind.loc.1) ||
  decide (ind.loc.2 ≤ 1) || decide ((params.sizeY : Int) - 2 ≤ ind.loc.2)

/-- survival.ts survives, by SurvivalCriteria enum value; PAIRS visits the
radius-1.5 neighborhood and CONTACT the four cardinal neighbors. -/
def survives (sem : FloatSem) (ind : Indiv) (criteria : Nat)
    (params : SimParams) (g : Grid) : Bool :=
  if criteria = 0 then surviveCircle ind params
  else if criteria = 1 then
    decide ((ind.loc.1 : ℚ) > (params.sizeX : ℚ) * 7 / 8)
  else if criteria = 2 then
    decide ((ind.loc.1 : ℚ) < (params.sizeX : ℚ) / 8)
  else if criteria = 3 then surviveCenterWeighted sem ind params
  else if criteria = 4 then surviveCornerWeighted sem ind params
  else if criteria = 5 then survivePairs ind g
  else if criteria = 6 then surviveContact ind g
  else if criteria = 7 then surviveAgainstAnyWall ind params
  else if criteria = 8 then surviveTouchAnyWall ind params
  else true

/-- survival.ts getSurvivors: a living individual survives if the criteria
list is empty or ANY criterion holds. -/
def getSurvivors (sem : FloatSem) (criteriaList : List Nat)
    (params : SimParams) (g : Grid) (p : Peeps) : List Indiv :=
  (peepsGetLiving p).filter fun ind =>
    decide (criteriaList.length = 0) ||
    criteriaList.any fun c => survives sem ind c params g

/- ── Genome colors (indiv.ts getGenomeColor) ───────────────────────── -/

/-- The JS `| 0` conversion: wrap into signed 32-bit. -/
def asInt32 (x : Int) : Int := (x + 2147483648).emod 4294967296 - 2147483648

/-- The genome hash loop of indiv.ts getGenomeColor.  The packed word v is
exactly geneToUint32; hash << 5 wraps as a signed 32-bit shift and the
whole accumulator is brought back to int32 by | 0 each round. -/
def genomeHash (genome : List Gene) : Int :=
  genome.foldl
    (fun hash gene =>
      asInt32 (asInt32 (hash * 32) - hash + (geneToUint32 gene : Int)))
    0

/-- JS `q % 2` for nonnegative float operands. -/
def qmod2 (q : ℚ) : ℚ := q - 2 * Int.floor (q / 2)

/-- indiv.ts hslToRgb over exact rationals. -/
def hslToRgb (h s l : ℚ) : Nat × Nat × Nat :=
  let c := (1 - |2 * l - 1|) * s
  let x := c * (1 - |qmod2 (h / 60) - 1|)
  let m := l - c / 2
  let rgb : ℚ × ℚ × ℚ :=
    if h < 60 then (c, x, 0)
    else if h < 120 then (x, c, 0)
    else if h < 180 then (0, c, x)
    else if h < 240 then (0, x, c)
    else if h < 300 then (x, 0, c)
    else (c, 0, x)
  ((jsRound ((rgb.1 + m) * 255)).toNat, (jsRound ((rgb.2.1 + m) * 255)).toNat,
   (jsRound ((rgb.2.2 + m) * 255)).toNat)

/-- indiv.ts getGenomeColor.  The hue/saturation/lightness divisions are
exact here where the JS doubles round; the color is a pure function of the
genome either way. -/
def getGenomeColor (genome : List Gene) : Nat × Nat × Nat :=
  if genome.length = 0 then (128, 128, 128)
  else
    let h32 := (genomeHash genome).emod 4294967296
    let hue := ((h32 % 65536 : Int) : ℚ) / 65535 * 360
    let sat := 7/10 + ((h32 / 65536 % 256 : Int) : ℚ) / 255 * (3/10)
    let light := 2/5 + ((h32 / 16777216 % 256 : Int) : ℚ) / 255 * (1/5)
    hslToRgb hue sat light

/-- simulator.ts buildColorCache: genome color per living individual,
keyed by 1-based index. -/
def buildColorCache (p : Peeps) : List (Nat × Nat × Nat × Nat) :=
  (List.range (getPopulationSize p)).filterMap fun k =>
    match peepsGet p (k + 1) with
    | some ind =>
      if ind.alive then some (k + 1, getGenomeColor ind.genome) else none
    | none => none

/- ── Population placement (neural-net.ts Peeps.init/initFromGenomes) ── -/

/-- The do-while placement loop: draw random locations until an empty cell
is found or 10000 attempts are exhausted; returns the last drawn location,
the generator, and the attempt count. -/
def placementLoop (g : Grid) : Nat → PRNGState → Nat →
    ((Int × Int) × PRNGState × Nat)
  | 0, st, attempts => ((0, 0), st, attempts)
  | fuel + 1, st, attempts =>
    let x := nextInt st g.sizeX
    let y := nextInt x.2 g.sizeY
    let loc := ((x.1 : Int), (y.1 : Int))
    let att := attempts + 1
    if !gridIsEmptyAt g loc && decide (att < 10000) then
      placementLoop g fuel y.2 att
    else (loc, y.2, att)

/-- The body of Peeps.init: create population random genomes and place
them; if placement ever exhausts its 10000 attempts the remaining
individuals are not created (the source breaks out of the loop). -/
def peepsInitGo (params : SimParams) :
    Nat → Nat → Grid → PRNGState → List (Option Indiv) × Grid × PRNGState
  | 0, _, g, st => ([], g, st)
  | n + 1, i, g, st =>
    let len := nextRange st params.genomeInitialLengthMin
      params.genomeInitialLengthMax
    let gen := makeRandomGenome len.2 len.1
    let pl := placementLoop g 10000 gen.2 0
    if 10000 ≤ pl.2.2 then ([], g, pl.2.1)
    else
      let ind := createIndiv i gen.1 pl.1 params
      let g2 := gridSet g pl.1 i
      let rest := peepsInitGo params n (i + 1) g2 pl.2.1
      (some ind :: rest.1, rest.2.1, rest.2.2)

/-- neural-net.ts Peeps.init: index 0 reserved, individuals 1-based. -/
def peepsInit (params : SimParams) (g : Grid) (st : PRNGState) :
    Peeps × Grid × PRNGState :=
  let r := peepsInitGo params params.population 1 g st
  (⟨none :: r.1, [], []⟩, r.2.1, r.2.2)

/-- The body of Peeps.initFromGenomes, bounded by both the genome list and
the population parameter. -/
def peepsInitFromGo (params : SimParams) :
    List (List Gene) → Nat → Nat → Grid → PRNGState →
      List (Option Indiv) × Grid × PRNGState
  | [], _, _, g, st => ([], g, st)
  | _, 0, _, g, st => ([], g, st)
  | gen :: rest, n + 1, i, g, st =>
    let pl := placementLoop g 10000 st 0
    if 10000 ≤ pl.2.2 then ([], g, pl.2.1)
    else
      let ind := createIndiv (i + 1) gen pl.1 params
      let g2 := gridSet g pl.1 (i + 1)
      let r := peepsInitFromGo params rest n (i + 1) g2 pl.2.1
      (some ind :: r.1, r.2.1, r.2.2)

/-- neural-net.ts Peeps.initFromGenomes. -/
def peepsInitFromGenomes (genomes : List (List Gene)) (params : SimParams)
    (g : Grid) (st : PRNGState) : Peeps × Grid × PRNGState :=
  let r := peepsInitFromGo params genomes params.population 0 g st
  (⟨none :: r.1, [], []⟩, r.2.1, r.2.2)

/- ── Generation statistics (analysis.ts) ───────────────────────────── -/

/-- analysis.ts computeGenerationStats; geneticDiversity draws from the
generator with its default sample size 100. -/
def computeGenerationStats (generation : Nat)
    (allIndivs : List (Option Indiv)) (survivors : List Indiv)
    (killDeaths : Nat) (st : PRNGState) : GenerationStats × PRNGState :=
  let living := allIndivs.filterMap fun o =>
    match o with
    | some ind => if ind.alive then some ind else none
    | none => none
  let genomes := living.map fun ind => ind.genome
  let lengths := genomes.map List.length
  let totalLength := lengths.sum
  let maxLen := lengths.foldl max 0
  let minLen? := lengths.foldl
    (fun acc l =>
      match acc with
      | none => some l
      | some m => some (min m l))
    none
  let gd := geneticDiversity genomes st 100
  ({ generation
     population := living.length
     survivors := survivors.length
     survivalRate := if 0 < living.length then
        (survivors.length : ℚ) / living.length
      else 0
     geneticDiversity := gd.1
     avgGenomeLength := if 0 < genomes.length then
        (totalLength : ℚ) / genomes.length
      else 0
     killDeaths
     maxGenomeLength := maxLen
     minGenomeLength := minLen?.getD 0 }, gd.2)

/- ── Simulator init, endGeneration, worker advance, getState ───────── -/

/-- simulator.ts constructor plus init(): zeroed grid and signals,
barriers, random initial population, color cache.  Every random draw
comes from the single generator seeded with params.rngSeed. -/
def simInit (params : SimParams) : SimState :=
  let bar := createBarrier (gridInit params.sizeX params.sizeY)
    params.barrierType (prngInit params.rngSeed)
  let pi := peepsInit params bar.1 bar.2
  { params
    grid := pi.2.1
    peeps := pi.1
    signals := signalsInit params.sizeX params.sizeY params.signalLayers
    rng := pi.2.2
    generation := 0
    simStep := 0
    running := false
    paused := false
    killDeaths := 0
    stats := none
    generationHistory := []
    colorCache := buildColorCache pi.1 }

/-- simulator.ts endGeneration: survivors, statistics, spawning, reset of
grid and signals, fresh barriers, placement of the new population, new
color cache; the generation counter advances and the step counter resets.
killDeaths is NOT reset here (only runGeneration and init reset it). -/
def endGeneration (sem : FloatSem) (s : SimState) : SimState :=
  let survivors := getSurvivors sem s.params.survivalCriteria s.params
    s.grid s.peeps
  let allIndivs := (List.range (getPopulationSize s.peeps)).map
    fun k => peepsGet s.peeps (k + 1)
  let stats := computeGenerationStats s.generation allIndivs survivors
    s.killDeaths s.rng
  let newGenomes := spawnNewGeneration survivors s.params stats.2
  let bar := createBarrier (gridClear s.grid) s.params.barrierType
    newGenomes.2
  let pi := peepsInitFromGenomes newGenomes.1 s.params bar.1 bar.2
  { s with
    peeps := pi.1
    grid := pi.2.1
    signals := sigZeroFill s.signals
    rng := pi.2.2
    stats := some stats.1
    generationHistory := s.generationHistory ++ [stats.1]
    colorCache := buildColorCache pi.1
    generation := s.generation + 1
    simStep := 0 }

/-- One iteration of the worker.ts simulationLoop body: end the generation
once the step counter reaches stepsPerGeneration, otherwise run one
step. -/
def advanceStep (sem : FloatSem) (s : SimState) : SimState :=
  if s.params.stepsPerGeneration ≤ s.simStep then endGeneration sem s
  else stepOnce sem s

def advanceN (sem : FloatSem) : Nat → SimState → SimState
  | 0, s => s
  | n + 1, s => advanceN sem n (advanceStep sem s)

/-- part_001 Signals.getLayerSnapshot. -/
def getLayerSnapshot (sig : Signals) (layerNum : Nat) : List Nat :=
  if sig.numLayers ≤ layerNum then [] else sig.layers.getD layerNum []

/-- simulator.ts SimulationState, with the typed-array buffers as byte
lists. -/
structure SimulationState where
  generation : Nat
  simStep : Nat
  running : Bool
  paused : Bool
  gridData : List Nat
  signalData : List Nat
  colorData : List Nat
  stats : Option GenerationStats
  generationHistory : List GenerationStats
deriving Repr, DecidableEq

/-- simulator.ts getState: the grid snapshot, layer-0 signal snapshot, and
per-cell RGB bytes resolved through the color cache (cells that are empty,
barrier, or missing from the cache stay black). -/
def getState (s : SimState) : SimulationState :=
  let size := s.params.sizeX * s.params.sizeY
  let colorData := (List.range size).flatMap fun i =>
    let val := s.grid.data.getD i 0
    if 0 < val ∧ val ≠ 65535 then
      match s.colorCache.find? (fun e => e.1 == val) with
      | some e => [e.2.1, e.2.2.1, e.2.2.2]
      | none => [0, 0, 0]
    else [0, 0, 0]
  { generation := s.generation
    simStep := s.simStep
    running := s.running
    paused := s.paused
    gridData := s.grid.data
    signalData := getLayerSnapshot s.signals 0
    colorData
    stats := s.stats
    generationHistory := s.generationHistory }

/-- C1: reproducibility end-to-end.  The whole pipeline — construction
(barriers, placement, color cache), per-step agent phase, queue draining,
signal fade, and generation turnover (survival, statistics, spawning with
mutations, re-placement) — reads randomness only from the single generator
seeded with params.rngSeed and no other input, so two simulators built
from the same SimParams and advanced the same number of worker iterations
produce identical state snapshots (grid bytes, signal bytes, color bytes,
counters, stats), for every N up to stepsPerGeneration times
maxGenerations. -/
theorem simulator_reproducible (sem : FloatSem) (params : SimParams)
    (c1 c2 : SimState) (h1 : c1 = simInit params) (h2 : c2 = simInit params)
    (n : Nat)
    (_hn : n ≤ params.stepsPerGeneration * params.maxGenerations) :
    getState (advanceN sem n c1) = getState (advanceN sem n c2) := by
  subst h1
  subst h2
  rfl

/-- Witness for simulator_reproducible at the default parameters and one
worker iteration. -/
theorem simulator_reproducible_witness :
    simInit DEFAULT_PARAMS = simInit DEFAULT_PARAMS ∧
    1 ≤ DEFAULT_PARAMS.stepsPerGeneration * DEFAULT_PARAMS.maxGenerations ∧
    getState (advanceN ratSem 1 (simInit DEFAULT_PARAMS)) =
      getState (advanceN ratSem 1 (simInit DEFAULT_PARAMS)) :=
  ⟨rfl, by decide,
   simulator_reproducible ratSem DEFAULT_PARAMS _ _ rfl rfl 1 (by decide)⟩
